import Mathlib

/-!
Verification development for the interview-session / credit-ledger engine of
man-shi-mai-server.

The definitions below are a shallow embedding of
src/interview/services/interview.service.ts (class InterviewService) and of the
string-parsing helpers of InterviewAIService (parseInterviewResponse and the
streaming loop of executeAnswerMockInterview).  Mongo collections are modelled
as in-memory lists; `findOneAndUpdate` with a conditional filter becomes an
explicit lookup followed by a conditional functional update; the AI text
producer is a parameter (a list of text fragments, or `none` for a stream that
throws).  JavaScript strings are modelled as `List Char`; `String.indexOf`,
`substring`, `trim` and global replacement are re-implemented below with the
same semantics (for the character classes actually occurring in this code
base).
-/

namespace ManShiMai

/-- JavaScript strings, modelled as lists of characters. -/
abbrev Str := List Char

/-- `findSub needle hay` is JavaScript `hay.indexOf(needle)`, returning `none`
for `-1`.  An empty needle matches at index 0, as in JS. -/
def findSub (needle : Str) : Str → Option Nat
  | [] => if needle.isPrefixOf ([] : Str) then some 0 else none
  | c :: t =>
    if needle.isPrefixOf (c :: t) then some 0
    else (findSub needle t).map (· + 1)

/-- `occursSub needle hay` is JavaScript `hay.includes(needle)`. -/
def occursSub (needle hay : Str) : Bool :=
  (findSub needle hay).isSome

/-- JavaScript `String.prototype.trim` (for the ASCII whitespace occurring in
this code base). -/
def trimStr (s : Str) : Str :=
  ((s.dropWhile Char.isWhitespace).reverse.dropWhile Char.isWhitespace).reverse

/-- JavaScript `s.replace(/pat/g, '')` for a literal pattern `pat`: left-to-right
non-overlapping removal of every occurrence. -/
def removeSub (pat : Str) : Str → Str
  | [] => []
  | c :: t =>
    if pat ≠ [] ∧ pat.isPrefixOf (c :: t) then removeSub pat (t.drop (pat.length - 1))
    else c :: removeSub pat t
termination_by s => s.length
decreasing_by
  · have h := List.length_drop (pat.length - 1) t
    simp only [List.length_cons]
    omega
  · simp only [List.length_cons]
    omega

/-- The `[STANDARD_ANSWER]` delimiter the AI embeds between the question and the
reference answer. -/
def saTag : Str := "[STANDARD_ANSWER]".data

/-- The `[END_INTERVIEW]` delimiter the AI embeds when the interview should end. -/
def eiTag : Str := "[END_INTERVIEW]".data

/-- Credit types of the ledger: the three `...RemainingCount` fields of the user
document (schema referenced from interview.service.ts as
resumeRemainingCount / specialRemainingCount / behaviorRemainingCount). -/
inductive CreditType
  | resume
  | special
  | behavior
deriving DecidableEq, Repr

/-- `ConsumptionStatus` of consumption-record.schema.ts, as used in
interview.service.ts (`PENDING`, `SUCCESS`, `FAILED`). -/
inductive ConsumptionStatus
  | pending
  | success
  | failed
deriving DecidableEq, Repr

/-- `ConsumptionType` enum of interview.service.ts (lines 55-60). -/
inductive ConsumptionType
  | resumeQuiz
  | specialInterview
  | behaviorInterview
  | aiInterview
deriving DecidableEq, Repr

/-- `MockInterviewType` of mock-interview.dto.ts: the service only ever tests
`=== MockInterviewType.SPECIAL` and treats everything else as the
behavior/comprehensive interview. -/
inductive MockInterviewType
  | special
  | behavior
deriving DecidableEq, Repr

/-- The per-user counters of the user document that the interview service
touches. -/
structure UserDoc where
  resumeRemainingCount : Int
  specialRemainingCount : Int
  behaviorRemainingCount : Int
deriving DecidableEq, Repr

/-- Read the counter for a credit type (field selection by `countField`). -/
def UserDoc.get (u : UserDoc) : CreditType → Int
  | .resume => u.resumeRemainingCount
  | .special => u.specialRemainingCount
  | .behavior => u.behaviorRemainingCount

/-- Write the counter for a credit type. -/
def UserDoc.set (u : UserDoc) : CreditType → Int → UserDoc
  | .resume, n => { u with resumeRemainingCount := n }
  | .special, n => { u with specialRemainingCount := n }
  | .behavior, n => { u with behaviorRemainingCount := n }

/-- A consumption record (consumption-record.schema.ts), restricted to the
fields interview.service.ts reads or writes. `requestId` is
`metadata.requestId`; `outputResultId` is `outputData.resultId`. -/
structure ConsumptionRecord where
  recordId : String
  userId : String
  ctype : ConsumptionType
  status : ConsumptionStatus
  requestId : Option String := none
  resultId : Option String := none
  outputResultId : Option String := none
  isRefunded : Bool := false
deriving DecidableEq, Repr

/-- A stored resume-quiz result (interview-quiz-result.schema.ts), restricted to
the fields the service reads back on an idempotent replay. -/
structure QuizResult where
  resultId : String
  userId : String
  questions : List String
  summary : String
deriving DecidableEq, Repr

/-- Roles in the in-memory conversation history. -/
inductive Role
  | interviewer
  | candidate
deriving DecidableEq, Repr

/-- One turn of `InterviewSession.conversationHistory` (interview.service.ts
lines 84-89). -/
structure Turn where
  role : Role
  content : Str
  timestampMs : Nat
  standardAnswer : Option Str := none
deriving DecidableEq, Repr

/-- The in-memory `InterviewSession` (interview.service.ts lines 65-98),
restricted to the fields the verified operations use. -/
structure Session where
  sessionId : String
  resultId : Option String := none
  consumptionRecordId : Option String := none
  userId : String
  interviewType : MockInterviewType
  resumeContent : String
  conversationHistory : List Turn
  questionCount : Nat
  startTimeMs : Nat
  targetDuration : Nat
  isActive : Bool
deriving DecidableEq, Repr

/-- One `qaList` item of the AIInterviewResult document. -/
structure QaItem where
  question : Str
  answer : Str
  standardAnswer : Option Str := none
deriving DecidableEq, Repr

/-- Lifecycle status of an AIInterviewResult document (`in_progress`, `paused`,
`completed` in the source). -/
inductive ResultStatus
  | inProgress
  | paused
  | completed
deriving DecidableEq, Repr

/-- The AIInterviewResult document (ai-interview-result.schema.ts), restricted
to the fields interview.service.ts reads or writes. -/
structure AIInterviewResult where
  resultId : String
  userId : String
  status : ResultStatus
  qaList : List QaItem
  totalQuestions : Nat
  answeredQuestions : Nat
  consumptionRecordId : String
  sessionState : Option Session := none
deriving DecidableEq, Repr

/-- The stores the interview service touches: the user collection, the
consumption-record collection, the two result collections and the in-memory
session table (`interviewSessions : Map<string, InterviewSession>`). -/
structure Db where
  users : List (String × UserDoc)
  records : List ConsumptionRecord
  quizResults : List QuizResult
  aiResults : List AIInterviewResult
  sessions : List (String × Session)
deriving DecidableEq, Repr

/-- `userModel.findById` / lookup by `_id`. -/
def lookupUser (db : Db) (uid : String) : Option UserDoc :=
  (db.users.find? (fun p => p.1 == uid)).map (fun p => p.2)

/-- Overwrite the user document with the given id (no-op if absent), as a
`findOneAndUpdate` that matched. -/
def setUser (db : Db) (uid : String) (u : UserDoc) : Db :=
  { db with users := db.users.map (fun p => if p.1 == uid then (uid, u) else p) }

/-- The atomic conditional debit (interview.service.ts lines 320-329 and
898-907): `findOneAndUpdate({_id, field: {$gt: 0}}, {$inc: {field: -1}},
{new: false})`.  Returns the pre-update document when the filter matched
(`none` models the `!user` insufficient-balance case) together with the
updated store. -/
def findOneAndDebit (db : Db) (uid : String) (t : CreditType) :
    Option UserDoc × Db :=
  match lookupUser db uid with
  | none => (none, db)
  | some u =>
    if u.get t > 0 then (some u, setUser db uid (u.set t (u.get t - 1)))
    else (none, db)

/-- `refundCount` (interview.service.ts lines 606-634):
`findByIdAndUpdate(userId, {$inc: {field: 1}}, {new: true})`, throwing when the
user does not exist.  `Except` error is that throw. -/
def refundCount (db : Db) (uid : String) (t : CreditType) : Except Unit Db :=
  match lookupUser db uid with
  | none => .error ()
  | some u => .ok (setUser db uid (u.set t (u.get t + 1)))

/-- Lookup of the in-memory session table (`interviewSessions.get`). -/
def lookupSession (db : Db) (sid : String) : Option Session :=
  (db.sessions.find? (fun p => p.1 == sid)).map (fun p => p.2)

/-- `Map.set` on the session table: replace if present, append otherwise (JS
`Map.set` keeps insertion order). -/
def putSessionList (l : List (String × Session)) (s : Session) :
    List (String × Session) :=
  if (l.find? (fun p => p.1 == s.sessionId)).isSome then
    l.map (fun p => if p.1 == s.sessionId then (s.sessionId, s) else p)
  else l ++ [(s.sessionId, s)]

/-- `interviewSessions.set(sessionId, session)`. -/
def putSession (db : Db) (s : Session) : Db :=
  { db with sessions := putSessionList db.sessions s }

/-- `interviewSessions.delete(sessionId)`. -/
def dropSession (db : Db) (sid : String) : Db :=
  { db with sessions := db.sessions.filter (fun p => ¬ p.1 == sid) }

/-- `aiInterviewResultModel.findOne({resultId, userId})`. -/
def findResult (db : Db) (rid uid : String) : Option AIInterviewResult :=
  db.aiResults.find? (fun r => r.resultId == rid && r.userId == uid)

/-- `aiInterviewResultModel.findOne({resultId})`. -/
def findResultById (db : Db) (rid : String) : Option AIInterviewResult :=
  db.aiResults.find? (fun r => r.resultId == rid)

/-- `aiInterviewResultModel.findOneAndUpdate({resultId}, ...)`: update every
matching document in place (resultId is unique, so at most one matches in real
stores). -/
def updateResultById (db : Db) (rid : String)
    (f : AIInterviewResult → AIInterviewResult) : Db :=
  { db with aiResults := db.aiResults.map (fun r => if r.resultId == rid then f r else r) }

/-- `consumptionRecordModel.findOneAndUpdate({recordId}, ...)` (and
`findByIdAndUpdate` on the record the service just created, which it addresses
by its unique id). -/
def updateRecordById (db : Db) (rid : String)
    (f : ConsumptionRecord → ConsumptionRecord) : Db :=
  { db with records := db.records.map (fun r => if r.recordId == rid then f r else r) }

/-- First consumption record with the given `recordId`. -/
def findRecordById (db : Db) (rid : String) : Option ConsumptionRecord :=
  db.records.find? (fun r => r.recordId == rid)

/-- Chronological log of the store-touching / metered steps an operation
performs, used to state ordering properties of the sagas. -/
inductive Action
  | debitAttempt (ok : Bool)
  | refund
  | refundFailed
  | createRecord (s : ConsumptionStatus)
  | updateRecord (s : ConsumptionStatus)
  | createQuizResult
  | createResult
  | updateResult
  | registerSession
  | aiCall
deriving DecidableEq, Repr

/-- Event kinds of `MockInterviewEventType` (mock-interview.dto.ts), as pushed
on the SSE subject by the service. -/
inductive EventType
  | start
  | question
  | referenceAnswer
  | waiting
  | thinking
  | ended
  | error
deriving DecidableEq, Repr

/-- An event pushed to the caller, restricted to the payload fields the claims
are about (`content`, `isStreaming`, `metadata.reason`). -/
structure Event where
  etype : EventType
  content : Option Str := none
  isStreaming : Option Bool := none
  reason : Option String := none
deriving DecidableEq, Repr

/-- Errors `executeResumeQuiz` can propagate.  Each constructor is one distinct
`throw` site: `requestInFlight` is `BadRequestException('请求正在处理中，请稍后查询结果')`,
`resultMissing` is `BadRequestException('结果不存在')`, `insufficientBalance` is
`BadRequestException('简历押题次数不足，请前往充值页面购买')`, `resumeContentMissing` is
`BadRequestException('请提供简历URL或简历内容')` from `extractResumeContent`, and
`upstreamFailure` is an exception thrown by the AI generation calls. -/
inductive QuizError
  | requestInFlight
  | resultMissing
  | insufficientBalance
  | resumeContentMissing
  | upstreamFailure
deriving DecidableEq, Repr

/-- The request body of the resume-quiz operation, restricted to the fields the
verified control flow reads (`requestId` for idempotency, `resumeContent` as the
priority-1 source of `extractResumeContent`). -/
structure ResumeQuizDto where
  requestId : Option String := none
  resumeContent : String
deriving DecidableEq, Repr

/-- Combined output of the two AI generation calls
(`generateResumeQuizQuestionsOnly` and `generateResumeQuizAnalysisOnly`),
restricted to the fields flowing into the stored result.  The caller passes
`none` to model either call throwing (`UpstreamGenerationFailure`). -/
structure AiQuizOutput where
  questions : List String
  summary : String
deriving DecidableEq, Repr

/-- The value `executeResumeQuiz` resolves with. -/
structure QuizReturn where
  resultId : String
  questions : List String
  summary : String
  isFromCache : Bool
deriving DecidableEq, Repr

/-- The `catch` block of `executeResumeQuiz` (lines 534-599): refund the resume
credit; if that throws, swallow the refund error (logged only) and skip the
record update; otherwise, when a consumption record was already created, mark it
FAILED with `isRefunded := true`; finally rethrow the original error. -/
def quizCatch (db : Db) (uid : String) (recId : Option String) (e : QuizError) :
    Db × List Action × Except QuizError QuizReturn :=
  match refundCount db uid .resume with
  | .error _ => (db, [Action.refundFailed], .error e)
  | .ok db1 =>
    match recId with
    | none => (db1, [Action.refund], .error e)
    | some rid =>
      (updateRecordById db1 rid (fun r => { r with status := .failed, isRefunded := true }),
       [Action.refund, Action.updateRecord .failed], .error e)

/-- Step 0 of `executeResumeQuiz` (lines 270-278): look for a prior
consumption record with the same `(userId, metadata.requestId)` and status in
`{SUCCESS, PENDING}`; skipped entirely when no request key is supplied. -/
def idempotencyLookup (db : Db) (uid : String) (requestId : Option String) :
    Option ConsumptionRecord :=
  match requestId with
  | none => none
  | some rid =>
    db.records.find? (fun r =>
      r.userId == uid && r.requestId == some rid &&
        (r.status == ConsumptionStatus.success || r.status == ConsumptionStatus.pending))

/-- `executeResumeQuiz` (interview.service.ts lines 256-600).
`recordId` and `resultId` are the two `uuidv4()` values drawn at the top;
`tempId` is the throwaway `result-${Date.now()}` id placed in the resolved value
(line 511); `ai` is the outcome of the AI generation stage.  Returns the final
stores, the chronological action log, and the resolved value or propagated
error. -/
def executeResumeQuiz (db : Db) (uid : String) (dto : ResumeQuizDto)
    (recordId resultId tempId : String) (ai : Option AiQuizOutput) :
    Db × List Action × Except QuizError QuizReturn :=
  match idempotencyLookup db uid dto.requestId with
  | some r =>
    if r.status == ConsumptionStatus.success then
      match db.quizResults.find? (fun q => some q.resultId == r.resultId) with
      | none => quizCatch db uid none .resultMissing
      | some q =>
        (db, [],
         .ok { resultId := q.resultId, questions := q.questions, summary := q.summary,
               isFromCache := true })
    else quizCatch db uid none .requestInFlight
  | none =>
    -- step 1: atomic conditional debit of resumeRemainingCount
    match findOneAndDebit db uid .resume with
    | (none, _) =>
      let c := quizCatch db uid none .insufficientBalance
      (c.1, Action.debitAttempt false :: c.2.1, c.2.2)
    | (some _, db1) =>
      -- step 2: create the PENDING consumption record
      let newRec : ConsumptionRecord :=
        { recordId := recordId, userId := uid, ctype := .resumeQuiz,
          status := .pending, requestId := dto.requestId, resultId := some resultId }
      let db2 := { db1 with records := db1.records ++ [newRec] }
      -- stage 1: extractResumeContent (priority 1: the directly provided text)
      if dto.resumeContent = "" then
        let c := quizCatch db2 uid (some recordId) .resumeContentMissing
        (c.1, [Action.debitAttempt true, Action.createRecord .pending] ++ c.2.1, c.2.2)
      else
        -- stage 2: the two AI generation calls
        match ai with
        | none =>
          let c := quizCatch db2 uid (some recordId) .upstreamFailure
          (c.1,
           [Action.debitAttempt true, Action.createRecord .pending, Action.aiCall] ++ c.2.1,
           c.2.2)
        | some out =>
          -- stage 3: store the result, then mark the record SUCCESS
          let qr : QuizResult :=
            { resultId := resultId, userId := uid, questions := out.questions,
              summary := out.summary }
          let db3 := { db2 with quizResults := db2.quizResults ++ [qr] }
          let db4 := updateRecordById db3 recordId
            (fun r => { r with status := .success, outputResultId := some resultId })
          (db4,
           [Action.debitAttempt true, Action.createRecord .pending, Action.aiCall,
            Action.createQuizResult, Action.updateRecord .success],
           .ok { resultId := tempId, questions := out.questions, summary := out.summary,
                 isFromCache := false })

/-- `SPECIAL_INTERVIEW_MAX_DURATION` (interview.service.ts line 114). -/
def SPECIAL_INTERVIEW_MAX_DURATION : Nat := 120

/-- `BEHAVIOR_INTERVIEW_MAX_DURATION` (interview.service.ts line 115). -/
def BEHAVIOR_INTERVIEW_MAX_DURATION : Nat := 120

/-- Errors the mock-interview operations can propagate.  `notFound` is a
`NotFoundException`, `badRequest` a `BadRequestException` (the message string
identifies the throw site), `internal` a plain `Error`, and `upstreamFailure`
an exception rethrown from the AI fragment generator. -/
inductive MockError
  | notFound (msg : String)
  | badRequest (msg : String)
  | internal (msg : String)
  | upstreamFailure
deriving DecidableEq, Repr

/-- `'专项面试次数不足，请前往充值页面购买'` (line 912 for SPECIAL). -/
def insufficientSpecialMsg : String := "专项面试次数不足，请前往充值页面购买"

/-- `'综合面试次数不足，请前往充值页面购买'` (line 912 otherwise). -/
def insufficientBehaviorMsg : String := "综合面试次数不足，请前往充值页面购买"

/-- `'请提供简历URL或简历内容'` (extractResumeContent, line 837). -/
def resumeMissingMsg : String := "请提供简历URL或简历内容"

/-- `'退款失败：用户不存在'` (refundCount, line 628). -/
def refundFailedMsg : String := "退款失败：用户不存在"

/-- The request body of `start` for the mock interview, restricted to the
fields the verified control flow reads. -/
structure StartMockDto where
  interviewType : MockInterviewType
  candidateName : Option String := none
  company : Option String := none
  positionName : Option String := none
  jd : Option String := none
  resumeContent : String
deriving DecidableEq, Repr

/-- The ledger field debited for a mock-interview type (`countField`,
lines 892-895). -/
def countFieldOf : MockInterviewType → CreditType
  | .special => .special
  | .behavior => .behavior

/-- The insufficient-balance message for a mock-interview type (line 912). -/
def insufficientMsgOf : MockInterviewType → String
  | .special => insufficientSpecialMsg
  | .behavior => insufficientBehaviorMsg

/-- The streaming `START` events pushed while the opening statement is
generated: one per fragment, carrying the accumulated text so far with
`isStreaming: true` (lines 1044-1060). -/
def startStreamEvents (acc : Str) : List Str → List Event
  | [] => []
  | c :: rest =>
    { etype := .start, content := some (acc ++ c), isStreaming := some true } ::
      startStreamEvents (acc ++ c) rest

/-- The action log of `executeStartMockInterview` up to (and including) the
creation of the consumption record. -/
def mockStartPreActions : List Action :=
  [Action.debitAttempt true, Action.registerSession, Action.createResult,
   Action.createRecord .success]

/-- Steps 5-8 of `executeStartMockInterview` (lines 1033-1122), from the point
where the debit, the session registration and both durable records are done
(`db5`): stream the opening statement, record it in the session and the
durable result, and emit the final events; if the fragment generator throws
(`opening = none`), the catch refunds the debited counter and rethrows. -/
def mockStartFinish (db5 : Db) (uid : String) (ctype : CreditType)
    (session1 : Session) (resultId : String) (openMs : Nat)
    (opening : Option (List Str)) :
    Db × List Action × List Event × Except MockError Unit :=
  match opening with
  | none =>
    match refundCount db5 uid ctype with
    | .error _ =>
      (db5, mockStartPreActions ++ [Action.aiCall], [],
       .error (.internal refundFailedMsg))
    | .ok db6 =>
      (db6, mockStartPreActions ++ [Action.aiCall, Action.refund], [],
       .error .upstreamFailure)
  | some chunks =>
    let fullOpening := chunks.flatten
    -- 6. record the opening turn on the (shared) session object
    let session2 :=
      { session1 with
        conversationHistory :=
          [{ role := .interviewer, content := fullOpening, timestampMs := openMs }] }
    let db6 := putSession db5 session2
    -- push the opening onto the durable qaList and sync sessionState
    let db7 := updateResultById db6 resultId (fun r =>
      { r with qaList := r.qaList ++ [{ question := fullOpening, answer := [] }],
               sessionState := some session2 })
    -- 7./8. final non-streaming START event, then WAITING
    (db7,
     mockStartPreActions ++ [Action.aiCall, Action.updateResult],
     startStreamEvents [] chunks ++
       [{ etype := .start, content := some fullOpening, isStreaming := some false },
        { etype := .waiting }],
     .ok ())

/-- `executeStartMockInterview` (interview.service.ts lines 884-1123).

`sessionId`, `resultId`, `recordId` are the `uuidv4()` values; `startMs` is
`new Date()` at session creation and `openMs` the timestamp taken after the
opening statement finished streaming; `opening` is the fragment stream of
`generateOpeningStatementStream` (`none` models the generator throwing, which
the `catch` at lines 1114-1122 handles by refunding and rethrowing).

Returns the final stores, the chronological action log, the pushed events,
and the propagated error if any. -/
def executeStartMockInterview (db : Db) (uid : String) (dto : StartMockDto)
    (sessionId resultId recordId : String) (startMs openMs : Nat)
    (opening : Option (List Str)) :
    Db × List Action × List Event × Except MockError Unit :=
  let ctype := countFieldOf dto.interviewType
  -- 1. atomic conditional debit of the per-type counter
  match findOneAndDebit db uid ctype with
  | (none, _) =>
    -- insufficient balance → throw; the catch refunds unconditionally and rethrows
    match refundCount db uid ctype with
    | .error _ =>
      (db, [Action.debitAttempt false], [], .error (.internal refundFailedMsg))
    | .ok db1 =>
      (db1, [Action.debitAttempt false, Action.refund], [],
       .error (.badRequest (insufficientMsgOf dto.interviewType)))
  | (some _, db1) =>
    -- 2. extractResumeContent({resumeId, resumeContent}): no resumeURL branch here,
    -- so an absent text falls through to the final throw, handled by the catch
    if dto.resumeContent = "" then
      match refundCount db1 uid ctype with
      | .error _ =>
        (db1, [Action.debitAttempt true], [], .error (.internal refundFailedMsg))
      | .ok db2 =>
        (db2, [Action.debitAttempt true, Action.refund], [],
         .error (.badRequest resumeMissingMsg))
    else
      -- 3. create the in-memory session and register it in the session table
      let session0 : Session :=
        { sessionId := sessionId, userId := uid, interviewType := dto.interviewType,
          resumeContent := dto.resumeContent, conversationHistory := [],
          questionCount := 0, startTimeMs := startMs,
          targetDuration :=
            match dto.interviewType with
            | .special => SPECIAL_INTERVIEW_MAX_DURATION
            | .behavior => BEHAVIOR_INTERVIEW_MAX_DURATION,
          isActive := true }
      let db2 := putSession db1 session0
      -- 4. draw resultId/recordId and write them onto the (shared) session object
      let session1 :=
        { session0 with resultId := some resultId, consumptionRecordId := some recordId }
      let db3 := putSession db2 session1
      -- create the durable AIInterviewResult (status in_progress)
      let newResult : AIInterviewResult :=
        { resultId := resultId, userId := uid, status := .inProgress, qaList := [],
          totalQuestions := 0, answeredQuestions := 0,
          consumptionRecordId := recordId, sessionState := some session1 }
      let db4 := { db3 with aiResults := db3.aiResults ++ [newResult] }
      -- create the consumption record, directly with status SUCCESS (line 1014)
      let newRec : ConsumptionRecord :=
        { recordId := recordId, userId := uid,
          ctype :=
            match dto.interviewType with
            | .special => ConsumptionType.specialInterview
            | .behavior => ConsumptionType.behaviorInterview,
          status := .success, resultId := some resultId }
      let db5 := { db4 with records := db4.records ++ [newRec] }
      -- 5.-8. stream the opening statement and finish (or refund on a throw)
      mockStartFinish db5 uid ctype session1 resultId openMs opening

/-- Parsed return value of the question generator
(`parseInterviewResponse`, interview-ai.service lines 379-424). -/
structure AiAnswer where
  question : Str
  shouldEnd : Bool
  standardAnswer : Option Str := none
deriving DecidableEq, Repr

/-- `parseInterviewResponse` (interview-ai.service lines 379-424): detect the
end marker, cut the reference answer out with the lazy regex
`\[STANDARD_ANSWER\]([\s\S]*?)(?=\[END_INTERVIEW\]|$)` (first
`[STANDARD_ANSWER]` occurrence, group up to the first following
`[END_INTERVIEW]` or the end), keep the part before the first
`[STANDARD_ANSWER]` as the question, and strip every `[END_INTERVIEW]` from
it. -/
def parseInterviewResponse (content : Str) : AiAnswer :=
  let shouldEnd := occursSub eiTag content
  let p :=
    match findSub saTag content with
    | some i =>
      let after := content.drop (i + saTag.length)
      let sa :=
        match findSub eiTag after with
        | some j => after.take j
        | none => after
      (some (trimStr sa), trimStr (content.take i))
    | none => ((none : Option Str), content)
  { question := trimStr (removeSub eiTag p.2), shouldEnd := shouldEnd,
    standardAnswer := p.1 }

/-- Mutable state of the fragment-consuming loop of
`executeAnswerMockInterview` (lines 1269-1402): the accumulated text, the
delimiter flag, the split question/reference-answer texts and the events
pushed so far. -/
structure LoopState where
  fullQuestion : Str
  hasStandardAnswer : Bool
  questionOnlyContent : Str
  standardAnswerContent : Str
  events : List Event
deriving DecidableEq, Repr

/-- One iteration of the fragment loop (lines 1300-1377): append the chunk,
look for `[STANDARD_ANSWER]` in the accumulated text; on first detection emit
the final (non-streaming) question event plus a waiting event; past the
delimiter push growing reference-answer events; before it, forward the
accumulated text as a streaming question event. -/
def answerChunkStep (st : LoopState) (chunk : Str) : LoopState :=
  let fullQuestion := st.fullQuestion ++ chunk
  match findSub saTag fullQuestion with
  | some idx =>
    let st1 :=
      if st.hasStandardAnswer then { st with fullQuestion := fullQuestion }
      else
        let q := trimStr (fullQuestion.take idx)
        { st with
          fullQuestion := fullQuestion,
          hasStandardAnswer := true,
          questionOnlyContent := q,
          events := st.events ++
            [{ etype := .question, content := some q, isStreaming := some false },
             { etype := .waiting }] }
    let cur := trimStr (fullQuestion.drop (idx + saTag.length))
    if cur.length > st1.standardAnswerContent.length then
      { st1 with
        standardAnswerContent := cur,
        events := st1.events ++
          [{ etype := .referenceAnswer, content := some cur, isStreaming := some true }] }
    else st1
  | none =>
    { st with
      fullQuestion := fullQuestion,
      events := st.events ++
        [{ etype := .question, content := some fullQuestion, isStreaming := some true }] }

/-- The whole fragment loop. -/
def runStreamLoop (st : LoopState) : List Str → LoopState
  | [] => st
  | c :: rest => runStreamLoop (answerChunkStep st c) rest

/-- `updateInterviewAnswer` (lines 1713-1775): write the user's answer into
`qaList[qaIndex]`, sync `sessionState`, and bump `answeredQuestions` only on
the first answer for that slot.  A missing document is a logged no-op.  (The
service only calls this with an index inside the stored list, so Mongo's
array-padding on out-of-range `$set` is not modelled.) -/
def updateInterviewAnswer (db : Db) (rid : String) (qaIndex : Nat) (ans : Str)
    (session : Session) : Db :=
  match findResultById db rid with
  | none => db
  | some r0 =>
    let isFirstAnswer :=
      match r0.qaList.get? qaIndex with
      | none => true
      | some item => item.answer = []
    updateResultById db rid (fun r =>
      { r with
        qaList := r.qaList.mapIdx
          (fun i item => if i = qaIndex then { item with answer := ans } else item),
        sessionState := some session,
        answeredQuestions :=
          if isFirstAnswer then r.answeredQuestions + 1 else r.answeredQuestions })

/-- `createInterviewQuestionPlaceholder` (lines 1788-1831): push a `[生成中...]`
placeholder onto `qaList` and bump `totalQuestions`. -/
def createInterviewQuestionPlaceholder (db : Db) (rid : String) : Db :=
  updateResultById db rid (fun r =>
    { r with qaList := r.qaList ++ [{ question := "[生成中...]".data, answer := [] }],
             totalQuestions := r.totalQuestions + 1 })

/-- `updateInterviewQuestion` (lines 1845-1882). -/
def updateInterviewQuestion (db : Db) (rid : String) (qaIndex : Nat) (q : Str) : Db :=
  updateResultById db rid (fun r =>
    let ql := r.qaList.mapIdx
      (fun i item => if i = qaIndex then { item with question := q } else item)
    { r with qaList := ql })

/-- `updateInterviewStandardAnswer` (lines 1895-1930). -/
def updateInterviewStandardAnswer (db : Db) (rid : String) (qaIndex : Nat)
    (sa : Str) : Db :=
  updateResultById db rid (fun r =>
    let ql := r.qaList.mapIdx
      (fun i item => if i = qaIndex then { item with standardAnswer := some sa } else item)
    { r with qaList := ql })

/-- The strict question/answer pairing of `saveMockInterviewResult`
(lines 1617-1627): history entries are consumed two at a time, an unpaired
trailing entry is dropped. -/
def pairQaList : List Turn → List QaItem
  | a :: b :: rest =>
    { question := a.content, answer := b.content, standardAnswer := a.standardAnswer } ::
      pairQaList rest
  | _ => []

/-- `saveMockInterviewResult` (lines 1573-1698): when the session already has a
`resultId` (the realtime-saving path used by `start`), mark the stored result
completed with the final session state and mark the linked consumption record
SUCCESS; otherwise create a full result and a SUCCESS record from scratch
(`freshResultId` / `freshRecordId` are the `uuidv4()` values of that legacy
branch). -/
def saveMockInterviewResult (db : Db) (session : Session)
    (freshResultId freshRecordId : String) : Db × String :=
  match session.resultId with
  | some rid =>
    let db1 := updateResultById db rid (fun r =>
      { r with status := .completed, sessionState := some session })
    let db2 :=
      match session.consumptionRecordId with
      | some cid => updateRecordById db1 cid (fun r => { r with status := .success })
      | none => db1
    (db2, rid)
  | none =>
    let qaList := pairQaList session.conversationHistory
    let newResult : AIInterviewResult :=
      { resultId := freshResultId, userId := session.userId, status := .completed,
        qaList := qaList, totalQuestions := qaList.length,
        answeredQuestions := qaList.length, consumptionRecordId := freshRecordId }
    let newRec : ConsumptionRecord :=
      { recordId := freshRecordId, userId := session.userId,
        ctype :=
          match session.interviewType with
          | .special => ConsumptionType.specialInterview
          | .behavior => ConsumptionType.behaviorInterview,
        status := .success, resultId := some freshResultId }
    ({ db with aiResults := db.aiResults ++ [newResult],
               records := db.records ++ [newRec] }, freshResultId)

/-- `'面试会话不存在或已过期'` (line 1174, `NotFoundException`). -/
def sessionMissingMsg : String := "面试会话不存在或已过期"

/-- `'无权访问此面试会话'` (line 1178, `BadRequestException`): the wrong-owner
(FORBIDDEN) rejection. -/
def forbiddenMsg : String := "无权访问此面试会话"

/-- `'面试会话已结束'` (line 1182, `BadRequestException`): the inactive-session
(INVALID_STATE) rejection. -/
def sessionEndedMsg : String := "面试会话已结束"

/-- `'session.resultId 不存在，无法保存数据'` (line 1413). -/
def resultIdMissingMsg : String := "session.resultId 不存在，无法保存数据"

/-- The per-type time limit used by the timeout check (lines 1206-1209). -/
def maxDurationOf : MockInterviewType → Nat
  | .special => SPECIAL_INTERVIEW_MAX_DURATION
  | .behavior => BEHAVIOR_INTERVIEW_MAX_DURATION

/-- The forced-timeout closing statement (line 1220) with the elapsed minutes
interpolated. -/
def timeoutClosingStatement (elapsed : Nat) : Str :=
  ("感谢您今天的面试表现。由于时间关系（已进行" ++ toString elapsed ++
    "分钟），我们今天的面试就到这里。您的回答让我们对您有了较为全面的了解，后续我们会进行综合评估，有结果会及时通知您。祝您生活愉快！").data

/-- The loop state at the start of the fragment loop: the empty accumulators
together with the already-pushed thinking event (step 4). -/
def answerLoopInit : LoopState :=
  { fullQuestion := [], hasStandardAnswer := false, questionOnlyContent := [],
    standardAnswerContent := [], events := [{ etype := .thinking }] }

/-- Steps 7-12 of `executeAnswerMockInterview` (lines 1416-1502): write the
previous round's answer into the durable qaList, create the placeholder for
the new question, record the new question (with its standard answer) on the
shared session object, fill the placeholder, and sync `sessionState`.
Returns the updated stores and the updated session object. -/
def answerPersist (db : Db) (session : Session) (rid : String) (ai : AiAnswer)
    (nowMs : Nat) : Db × Session :=
  -- 7. persist the previous round's answer
  let db :=
    if session.conversationHistory.length ≥ 2 then
      match session.conversationHistory.get? (session.conversationHistory.length - 2),
            session.conversationHistory.get? (session.conversationHistory.length - 1) with
      | some pq, some ua =>
        if pq.role = .interviewer ∧ ua.role = .candidate then
          if session.conversationHistory.length - 2 = 0 then
            updateInterviewAnswer db rid 0 ua.content session
          else
            updateInterviewAnswer db rid (session.questionCount - 1) ua.content session
        else db
      | _, _ => db
    else db
  -- 8. placeholder for the new question
  let newQAIndex :=
    match findResultById db rid with
    | some r => r.qaList.length
    | none => 0
  let db := createInterviewQuestionPlaceholder db rid
  -- 9. record the new question on the shared session object
  let session := { session with
    conversationHistory := session.conversationHistory ++
      [{ role := .interviewer, content := ai.question,
         timestampMs := nowMs, standardAnswer := ai.standardAnswer }] }
  let db := putSession db session
  -- 10./11. fill the placeholder (standard answer only when non-empty:
  -- `if (aiResponse.standardAnswer)` is false for '' as well)
  let db := updateInterviewQuestion db rid newQAIndex ai.question
  let db :=
    match ai.standardAnswer with
    | some sa =>
      if sa ≠ [] then updateInterviewStandardAnswer db rid newQAIndex sa else db
    | none => db
  -- 12. sync sessionState
  let db := updateResultById db rid (fun r => { r with sessionState := some session })
  (db, session)

/-- Steps 4-12 of `executeAnswerMockInterview` (lines 1261-1558), from the
point where the candidate turn has been recorded and the timeout check has
passed: stream the next question, split it on the delimiters, run the
persistence steps, then either end the interview (`[END_INTERVIEW]` seen) or
emit the final question/waiting events.  `db` and `session` are the store and
the (already updated) shared session object. -/
def answerGenerate (db : Db) (session : Session) (nowMs : Nat) (chunks : List Str)
    (freshResultId freshRecordId : String) :
    Db × List Action × List Event × Except MockError Unit :=
  -- 4. thinking event, 5. consume the fragment stream
  let st := runStreamLoop answerLoopInit chunks
  -- final reference-answer event once the generator is done
  let st :=
    if st.hasStandardAnswer ∧ st.standardAnswerContent ≠ [] then
      { st with events := st.events ++
        [{ etype := .referenceAnswer, content := some st.standardAnswerContent,
           isStreaming := some false }] }
    else st
  let aiResponse := parseInterviewResponse st.fullQuestion
  -- 6. resultId must exist
  match session.resultId with
  | none => (db, [Action.aiCall], st.events, .error (.internal resultIdMissingMsg))
  | some rid =>
    -- 7.-12. persist the previous answer, the placeholder and its fills
    let p := answerPersist db session rid aiResponse nowMs
    -- 12'. end or continue
    if aiResponse.shouldEnd then
      let sessionEnded := { p.2 with isActive := false }
      let db2 := putSession p.1 sessionEnded
      let sv := saveMockInterviewResult db2 sessionEnded freshResultId freshRecordId
      (sv.1, [Action.aiCall, Action.updateResult],
       st.events ++
         [{ etype := .ended, content := some aiResponse.question,
            isStreaming := some false }],
       .ok ())
    else if ¬ st.hasStandardAnswer then
      (p.1, [Action.aiCall],
       st.events ++
         [{ etype := .question, content := some aiResponse.question,
            isStreaming := some false },
          { etype := .waiting }],
       .ok ())
    else (p.1, [Action.aiCall], st.events, .ok ())

/-- `executeAnswerMockInterview` (interview.service.ts lines 1163-1562).

`nowMs` is the wall clock during the call (the source draws `new Date()` a few
times within the same handler; they are modelled as one instant — none of the
verified properties distinguishes them); `chunks` are the fragments yielded by
`generateInterviewQuestionStream`, whose return value is
`parseInterviewResponse` applied to their concatenation; `freshResultId` /
`freshRecordId` feed the legacy branch of `saveMockInterviewResult`.

The delayed 5-minute eviction (`setTimeout`) is outside the synchronous
operation and is not part of the final state. -/
def executeAnswerMockInterview (db : Db) (uid sessionId : String) (answer : Str)
    (nowMs : Nat) (chunks : List Str) (freshResultId freshRecordId : String) :
    Db × List Action × List Event × Except MockError Unit :=
  -- 1. session lookup and validation
  match lookupSession db sessionId with
  | none => (db, [], [], .error (.notFound sessionMissingMsg))
  | some session =>
    if session.userId ≠ uid then (db, [], [], .error (.badRequest forbiddenMsg))
    else if ¬ session.isActive then (db, [], [], .error (.badRequest sessionEndedMsg))
    else
      -- 2. record the candidate answer on the shared session object
      let session := { session with
        conversationHistory := session.conversationHistory ++
          [{ role := .candidate, content := answer, timestampMs := nowMs }],
        questionCount := session.questionCount + 1 }
      let db := putSession db session
      -- 3. elapsed time, 3.1 timeout check
      let elapsedMinutes := (nowMs - session.startTimeMs) / 1000 / 60
      let maxDuration := maxDurationOf session.interviewType
      if elapsedMinutes ≥ maxDuration then
        let session := { session with isActive := false }
        let closing := timeoutClosingStatement elapsedMinutes
        let session := { session with
          conversationHistory := session.conversationHistory ++
            [{ role := .interviewer, content := closing, timestampMs := nowMs }] }
        let db := putSession db session
        let sv := saveMockInterviewResult db session freshResultId freshRecordId
        (sv.1, [Action.updateResult],
         [{ etype := .ended, content := some closing, isStreaming := some false,
            reason := some "timeout" }],
         .ok ())
      else
        -- 4.-12. generate the next question (or the AI-driven ending)
        answerGenerate db session nowMs chunks freshResultId freshRecordId


/-- The shared session object right after the candidate turn is recorded
(step 2 of `executeAnswerMockInterview`, lines 1186-1192). -/
def answeredSession (s : Session) (answer : Str) (nowMs : Nat) : Session :=
  { s with
    conversationHistory := s.conversationHistory ++
      [{ role := .candidate, content := answer, timestampMs := nowMs }],
    questionCount := s.questionCount + 1 }

/-- The session object as the forced-timeout branch leaves it (lines
1213-1227): deactivated, with the closing statement appended. -/
def timeoutEndedSession (s : Session) (answer : Str) (nowMs : Nat) : Session :=
  { answeredSession s answer nowMs with
    isActive := false,
    conversationHistory := (answeredSession s answer nowMs).conversationHistory ++
      [{ role := .interviewer,
         content := timeoutClosingStatement ((nowMs - s.startTimeMs) / 1000 / 60),
         timestampMs := nowMs }] }

/-- `'面试记录不存在'` (pause, line 2004). -/
def interviewMissingMsg : String := "面试记录不存在"

/-- `'面试已经暂停'` (pause, line 2008). -/
def alreadyPausedMsg : String := "面试已经暂停"

/-- `'面试已经结束，无法暂停'` (pause, line 2012). -/
def cannotPauseCompletedMsg : String := "面试已经结束，无法暂停"

/-- `'未找到可恢复的面试，或面试未暂停'` (resume, line 2073). -/
def notResumableMsg : String := "未找到可恢复的面试，或面试未暂停"

/-- `'会话数据不完整，无法恢复'` (resume, lines 2078 and 2086). -/
def sessionDataIncompleteMsg : String := "会话数据不完整，无法恢复"

/-- Resolved value of `pauseMockInterview`. -/
structure PauseReturn where
  resultId : String
  pausedAtMs : Nat
deriving DecidableEq, Repr

/-- `pauseMockInterview` (lines 1991-2043): load the record by
`(resultId, userId)`, reject when absent / already paused / completed, mark the
durable record paused, and evict the in-memory session named by the stored
`sessionState` (skipped when that snapshot or its sessionId is missing). -/
def pauseMockInterview (db : Db) (uid rid : String) (nowMs : Nat) :
    Db × Except MockError PauseReturn :=
  match findResult db rid uid with
  | none => (db, .error (.notFound interviewMissingMsg))
  | some r =>
    if r.status = .paused then (db, .error (.badRequest alreadyPausedMsg))
    else if r.status = .completed then (db, .error (.badRequest cannotPauseCompletedMsg))
    else
      let db1 := updateResultById db rid (fun x => { x with status := .paused })
      let db2 :=
        match r.sessionState with
        | some s => if s.sessionId ≠ "" then dropSession db1 s.sessionId else db1
        | none => db1
      (db2, .ok { resultId := rid, pausedAtMs := nowMs })

/-- Resolved value of `resumeMockInterview`. -/
structure ResumeReturn where
  resultId : String
  sessionId : String
  currentQuestion : Nat
  lastQuestion : Option Str
  conversationHistory : List Turn
deriving DecidableEq, Repr

/-- `resumeMockInterview` (lines 2049-2130): load the paused record by
`(resultId, userId, status: paused)`, reject when absent or when the stored
snapshot is unusable, re-activate the snapshot, put it back into the in-memory
table, mark the durable record in_progress with the re-activated snapshot, and
return the last interviewer turn plus the full transcript. -/
def resumeMockInterview (db : Db) (uid rid : String) :
    Db × Except MockError ResumeReturn :=
  match db.aiResults.find? (fun r =>
      r.resultId == rid && r.userId == uid && r.status == ResultStatus.paused) with
  | none => (db, .error (.notFound notResumableMsg))
  | some r =>
    match r.sessionState with
    | none => (db, .error (.badRequest sessionDataIncompleteMsg))
    | some s =>
      if s.sessionId = "" then (db, .error (.badRequest sessionDataIncompleteMsg))
      else
        let s1 := { s with isActive := true }
        let db1 := putSession db s1
        let db2 := updateResultById db1 rid (fun x =>
          { x with status := .inProgress, sessionState := some s1 })
        let lastQuestion :=
          match s1.conversationHistory.getLast? with
          | some t => if t.role = .interviewer then some t.content else none
          | none => none
        (db2, .ok { resultId := rid, sessionId := s1.sessionId,
                    currentQuestion := s1.questionCount, lastQuestion := lastQuestion,
                    conversationHistory := s1.conversationHistory })

/-! ## Concrete fixtures

Small concrete stores used to evaluate the operations at explicit inputs. -/

/-- A user with no special-interview credit left. -/
def userNoSpecial : UserDoc :=
  { resumeRemainingCount := 2, specialRemainingCount := 0, behaviorRemainingCount := 5 }

/-- A user with positive balances. -/
def userFunded : UserDoc :=
  { resumeRemainingCount := 2, specialRemainingCount := 3, behaviorRemainingCount := 5 }

/-- A store holding only a user with zero special-interview balance. -/
def dbZeroSpecial : Db :=
  { users := [("u", userNoSpecial)], records := [], quizResults := [], aiResults := [],
    sessions := [] }

/-- A store holding only a funded user. -/
def dbFunded : Db :=
  { users := [("u", userFunded)], records := [], quizResults := [], aiResults := [],
    sessions := [] }

/-- A special-interview start request. -/
def startDtoSpecial : StartMockDto := { interviewType := .special, resumeContent := "cv" }

/-- A resume-quiz request without an idempotency key. -/
def quizDtoNoKey : ResumeQuizDto := { resumeContent := "cv" }

/-- A resume-quiz request with idempotency key "rk". -/
def quizDtoKey : ResumeQuizDto := { requestId := some "rk", resumeContent := "cv" }

/-- A prior SUCCESS consumption record for key "rk" pointing at result "rs". -/
def priorSuccessRecord : ConsumptionRecord :=
  { recordId := "old", userId := "u", ctype := .resumeQuiz, status := .success,
    requestId := some "rk", resultId := some "rs" }

/-- A prior PENDING consumption record for key "rk". -/
def priorPendingRecord : ConsumptionRecord :=
  { recordId := "old", userId := "u", ctype := .resumeQuiz, status := .pending,
    requestId := some "rk", resultId := some "rs" }

/-- The stored quiz result behind the prior SUCCESS record. -/
def priorQuizResult : QuizResult :=
  { resultId := "rs", userId := "u", questions := ["q1"], summary := "sum" }

/-- A funded store with a completed prior attempt under key "rk". -/
def dbPriorSuccess : Db :=
  { dbFunded with records := [priorSuccessRecord], quizResults := [priorQuizResult] }

/-- A funded store with an in-flight prior attempt under key "rk". -/
def dbPriorPending : Db :=
  { dbFunded with records := [priorPendingRecord] }

/-- Sample AI output for the quiz generation stage. -/
def sampleAiOutput : AiQuizOutput := { questions := ["g1"], summary := "s" }

/-- An active in-memory session as `executeStartMockInterview` leaves it after
the opening statement. -/
def activeSession : Session :=
  { sessionId := "s", resultId := some "res", consumptionRecordId := some "rec",
    userId := "u", interviewType := .special, resumeContent := "cv",
    conversationHistory := [{ role := .interviewer, content := "opening".data,
                              timestampMs := 0 }],
    questionCount := 0, startTimeMs := 0, targetDuration := 120, isActive := true }

/-- The durable result backing `activeSession`. -/
def activeResult : AIInterviewResult :=
  { resultId := "res", userId := "u", status := .inProgress,
    qaList := [{ question := "opening".data, answer := [] }],
    totalQuestions := 0, answeredQuestions := 0, consumptionRecordId := "rec",
    sessionState := some activeSession }

/-- The consumption record backing `activeSession`. -/
def activeRecord : ConsumptionRecord :=
  { recordId := "rec", userId := "u", ctype := .specialInterview, status := .success,
    resultId := some "res" }

/-- A full store with one active mock-interview session. -/
def dbActive : Db :=
  { users := [("u", userFunded)], records := [activeRecord], quizResults := [],
    aiResults := [activeResult], sessions := [("s", activeSession)] }

/-- The delimiter-splitting scenario stream of the spec, as a single string. -/
def c7Stream : Str :=
  "Why did you leave?[STANDARD_ANSWER]Because of growth.[END_INTERVIEW]".data

/-! ## Generic lemmas on the store primitives -/

/-- `find?` over a conditionally mapped list: if the first `pOld`-match is `r`,
every `pOld`-match is rewritten by `f`, the rewritten hit satisfies `pNew`, and
rewriting a miss cannot create a `pNew`-match, then the first `pNew`-match of
the mapped list is `f r`. -/
theorem find?_map_cond {α : Type} (f : α → α) (q pOld pNew : α → Bool) :
    ∀ (l : List α) (r : α), l.find? pOld = some r →
      (∀ x, pOld x = true → q x = true) →
      pNew (f r) = true →
      (∀ x, pOld x = false → pNew (if q x then f x else x) = false) →
      (l.map (fun x => if q x then f x else x)).find? pNew = some (f r)
  | [], r, h, _, _, _ => by simp [List.find?] at h
  | a :: l, r, h, hq, hnew, hmiss => by
    by_cases ha : pOld a = true
    · rw [List.find?_cons_of_pos _ ha] at h
      cases h
      simp only [List.map]
      rw [if_pos (by exact_mod_cast hq a ha)]
      exact List.find?_cons_of_pos _ hnew
    · have ha' : pOld a = false := by
        cases hb : pOld a
        · rfl
        · exact absurd hb ha
      rw [List.find?_cons_of_neg _ (by simp [ha'])] at h
      simp only [List.map]
      rw [List.find?_cons_of_neg _ (by simp [hmiss a ha'])]
      exact find?_map_cond f q pOld pNew l r h hq hnew hmiss

/-- A `find?` miss on the left part of an append. -/
theorem find?_append_right {α : Type} {l1 : List α} (l2 : List α) {p : α → Bool}
    (h : l1.find? p = none) : (l1 ++ l2).find? p = l2.find? p := by
  rw [List.find?_append, h, Option.none_or]

theorem UserDoc.get_set_same (u : UserDoc) (t : CreditType) (v : Int) :
    (u.set t v).get t = v := by cases t <;> rfl

theorem UserDoc.set_set_same (u : UserDoc) (t : CreditType) (a b : Int) :
    (u.set t a).set t b = u.set t b := by cases t <;> rfl

theorem UserDoc.set_get_self (u : UserDoc) (t : CreditType) :
    u.set t (u.get t) = u := by cases t <;> rfl

/-- After `setUser`, the looked-up document of that user is the written one
(provided the user existed before). -/
theorem lookupUser_setUser_self {db : Db} {uid : String} {u : UserDoc} (w : UserDoc)
    (h : lookupUser db uid = some u) :
    lookupUser (setUser db uid w) uid = some w := by
  unfold lookupUser at h ⊢
  unfold setUser
  obtain ⟨pr, hpr, _⟩ := Option.map_eq_some'.mp h
  have hmap := find?_map_cond (fun _ => (uid, w)) (fun p => p.1 == uid)
    (fun p => p.1 == uid) (fun p => p.1 == uid) db.users pr hpr
    (fun x hx => hx) (by simp)
    (by
      intro x hx
      rw [if_neg (by simp [hx])]
      exact hx)
  simp only [hmap, Option.map_some']

/-- The debit when the filter matches: the pre-image document is returned and
the counter is decremented. -/
theorem findOneAndDebit_pos {db : Db} {uid : String} {u : UserDoc} {t : CreditType}
    (h : lookupUser db uid = some u) (hpos : u.get t > 0) :
    findOneAndDebit db uid t = (some u, setUser db uid (u.set t (u.get t - 1))) := by
  unfold findOneAndDebit
  rw [h]
  dsimp only
  rw [if_pos hpos]

/-- The debit when the balance is not positive: no match, store untouched. -/
theorem findOneAndDebit_zero {db : Db} {uid : String} {u : UserDoc} {t : CreditType}
    (h : lookupUser db uid = some u) (hz : ¬ u.get t > 0) :
    findOneAndDebit db uid t = (none, db) := by
  unfold findOneAndDebit
  rw [h]
  dsimp only
  rw [if_neg hz]

/-- The refund when the user exists: increment the counter. -/
theorem refundCount_some {db : Db} {uid : String} {u : UserDoc} {t : CreditType}
    (h : lookupUser db uid = some u) :
    refundCount db uid t = .ok (setUser db uid (u.set t (u.get t + 1))) := by
  unfold refundCount
  rw [h]

theorem lookupUser_withRecords (db : Db) (rs : List ConsumptionRecord) (uid : String) :
    lookupUser { db with records := rs } uid = lookupUser db uid := rfl

theorem lookupUser_withQuizResults (db : Db) (qs : List QuizResult) (uid : String) :
    lookupUser { db with quizResults := qs } uid = lookupUser db uid := rfl

theorem lookupUser_withAiResults (db : Db) (rs : List AIInterviewResult) (uid : String) :
    lookupUser { db with aiResults := rs } uid = lookupUser db uid := rfl

theorem lookupUser_updateRecordById (db : Db) (rid : String)
    (f : ConsumptionRecord → ConsumptionRecord) (uid : String) :
    lookupUser (updateRecordById db rid f) uid = lookupUser db uid := rfl

theorem lookupUser_updateResultById (db : Db) (rid : String)
    (f : AIInterviewResult → AIInterviewResult) (uid : String) :
    lookupUser (updateResultById db rid f) uid = lookupUser db uid := rfl

theorem lookupUser_putSession (db : Db) (s : Session) (uid : String) :
    lookupUser (putSession db s) uid = lookupUser db uid := rfl

theorem setUser_records (db : Db) (uid : String) (u : UserDoc) :
    (setUser db uid u).records = db.records := rfl

theorem setUser_quizResults (db : Db) (uid : String) (u : UserDoc) :
    (setUser db uid u).quizResults = db.quizResults := rfl

theorem setUser_aiResults (db : Db) (uid : String) (u : UserDoc) :
    (setUser db uid u).aiResults = db.aiResults := rfl

theorem setUser_sessions (db : Db) (uid : String) (u : UserDoc) :
    (setUser db uid u).sessions = db.sessions := rfl

theorem putSession_users (db : Db) (s : Session) :
    (putSession db s).users = db.users := rfl

theorem putSession_records (db : Db) (s : Session) :
    (putSession db s).records = db.records := rfl

theorem putSession_aiResults (db : Db) (s : Session) :
    (putSession db s).aiResults = db.aiResults := rfl

/-- After `putSession`, looking up the session's own id yields it. -/
theorem lookupSession_putSession_self (db : Db) (s : Session) :
    lookupSession (putSession db s) s.sessionId = some s := by
  unfold lookupSession putSession putSessionList
  dsimp only
  by_cases hsome : (db.sessions.find? (fun p => p.1 == s.sessionId)).isSome
  · rw [if_pos hsome]
    obtain ⟨pr, hpr⟩ := Option.isSome_iff_exists.mp hsome
    have hmap := find?_map_cond (fun _ => (s.sessionId, s)) (fun p => p.1 == s.sessionId)
      (fun p => p.1 == s.sessionId) (fun p => p.1 == s.sessionId) db.sessions pr hpr
      (fun x hx => hx) (by simp)
      (by
        intro x hx
        rw [if_neg (by simp [hx])]
        exact hx)
    simp only [hmap, Option.map_some']
  · rw [if_neg hsome]
    have hnone : db.sessions.find? (fun p => p.1 == s.sessionId) = none :=
      Option.not_isSome_iff_eq_none.mp hsome
    simp only [find?_append_right _ hnone]
    rw [List.find?_cons_of_pos _ (by simp)]
    rfl

theorem lookupSession_setUser (db : Db) (uid : String) (u : UserDoc) (sid : String) :
    lookupSession (setUser db uid u) sid = lookupSession db sid := rfl

theorem lookupSession_updateRecordById (db : Db) (rid : String)
    (f : ConsumptionRecord → ConsumptionRecord) (sid : String) :
    lookupSession (updateRecordById db rid f) sid = lookupSession db sid := rfl

theorem lookupSession_updateResultById (db : Db) (rid : String)
    (f : AIInterviewResult → AIInterviewResult) (sid : String) :
    lookupSession (updateResultById db rid f) sid = lookupSession db sid := rfl

/-- `findResultById` after `updateResultById` on the same id, when the update
preserves the id. -/
theorem findResultById_update_self {db : Db} {rid : String} {r : AIInterviewResult}
    (f : AIInterviewResult → AIInterviewResult)
    (h : findResultById db rid = some r)
    (hid : (f r).resultId = r.resultId) :
    findResultById (updateResultById db rid f) rid = some (f r) := by
  unfold findResultById at h ⊢
  unfold updateResultById
  have hr := List.find?_some h
  exact find?_map_cond f (fun x => x.resultId == rid) (fun x => x.resultId == rid)
    (fun x => x.resultId == rid) db.aiResults r h (fun x hx => hx)
    (by show ((f r).resultId == rid) = true; rw [hid]; exact hr)
    (by
      intro x hx
      rw [if_neg (by simp [hx])]
      exact hx)

theorem findResultById_updateRecordById (db : Db) (cid : String)
    (f : ConsumptionRecord → ConsumptionRecord) (rid : String) :
    findResultById (updateRecordById db cid f) rid = findResultById db rid := rfl

theorem findResultById_putSession (db : Db) (s : Session) (rid : String) :
    findResultById (putSession db s) rid = findResultById db rid := rfl

theorem findResultById_setUser (db : Db) (uid : String) (u : UserDoc) (rid : String) :
    findResultById (setUser db uid u) rid = findResultById db rid := rfl

/-- `findRecordById` after `updateRecordById` on the same id, when the update
preserves the id. -/
theorem findRecordById_update_self {db : Db} {rid : String} {r : ConsumptionRecord}
    (f : ConsumptionRecord → ConsumptionRecord)
    (h : findRecordById db rid = some r)
    (hid : (f r).recordId = r.recordId) :
    findRecordById (updateRecordById db rid f) rid = some (f r) := by
  unfold findRecordById at h ⊢
  unfold updateRecordById
  have hr := List.find?_some h
  exact find?_map_cond f (fun x => x.recordId == rid) (fun x => x.recordId == rid)
    (fun x => x.recordId == rid) db.records r h (fun x hx => hx)
    (by show ((f r).recordId == rid) = true; rw [hid]; exact hr)
    (by
      intro x hx
      rw [if_neg (by simp [hx])]
      exact hx)

/-! ## Lemmas about the string primitives and the fragment loop -/

theorem isPrefixOf_append_left {pat s : Str} (t : Str)
    (h : pat.isPrefixOf s = true) : pat.isPrefixOf (s ++ t) = true := by
  rw [List.isPrefixOf_iff_prefix] at h ⊢
  exact h.trans (List.prefix_append s t)

theorem findSub_nil_needle (s : Str) : findSub [] s = some 0 := by
  cases s <;> simp [findSub, List.isPrefixOf]

/-- An occurrence survives extending the text on the right. -/
theorem findSub_isSome_append {pat : Str} (t : Str) :
    ∀ {s : Str}, (findSub pat s).isSome → (findSub pat (s ++ t)).isSome := by
  intro s
  induction s with
  | nil =>
    intro h
    rw [findSub] at h
    by_cases hp : pat.isPrefixOf ([] : Str) = true
    · have hpat : pat = [] := by
        cases pat with
        | nil => rfl
        | cons a as => simp [List.isPrefixOf] at hp
      subst hpat
      rw [List.nil_append, findSub_nil_needle]
      rfl
    · rw [if_neg (by simpa using hp)] at h
      simp at h
  | cons c s ih =>
    intro h
    rw [List.cons_append, findSub]
    by_cases hp : pat.isPrefixOf (c :: s) = true
    · rw [if_pos (by simpa using isPrefixOf_append_left t hp)]
      rfl
    · rw [findSub, if_neg (by simpa using hp)] at h
      by_cases hp2 : pat.isPrefixOf (c :: (s ++ t)) = true
      · rw [if_pos (by simpa using hp2)]
        rfl
      · rw [if_neg (by simpa using hp2)]
        cases hf : findSub pat s with
        | none => rw [hf] at h; simp at h
        | some i =>
          rw [hf] at h
          cases hf2 : findSub pat (s ++ t) with
          | none =>
            exfalso
            have := ih (by simp [hf])
            rw [hf2] at this
            simp at this
          | some j => simp

theorem occursSub_false_of_append {pat s t : Str}
    (h : occursSub pat (s ++ t) = false) : occursSub pat s = false := by
  cases ho : occursSub pat s
  · rfl
  · exfalso
    unfold occursSub at ho h
    rw [findSub_isSome_append t ho] at h
    exact Bool.true_eq_false.mp h

theorem findSub_eq_none_of_not_occurs {pat s : Str}
    (h : occursSub pat s = false) : findSub pat s = none := by
  unfold occursSub at h
  exact Option.not_isSome_iff_eq_none.mp (by simp [h])

theorem findSub_cons_eq_none {pat : Str} {c : Char} {t : Str}
    (h : findSub pat (c :: t) = none) :
    pat.isPrefixOf (c :: t) = false ∧ findSub pat t = none := by
  rw [findSub] at h
  by_cases hp : pat.isPrefixOf (c :: t) = true
  · rw [if_pos hp] at h
    exact absurd h (by simp)
  · rw [if_neg (by simpa using hp)] at h
    refine ⟨Bool.eq_false_iff.mpr hp, ?_⟩
    cases hf : findSub pat t
    · rfl
    · rw [hf] at h
      exact absurd h (by simp)

/-- When the pattern never occurs, global removal is the identity. -/
theorem removeSub_eq_self {pat : Str} :
    ∀ {s : Str}, occursSub pat s = false → removeSub pat s = s
  | [], _ => by rw [removeSub]
  | c :: t, h => by
    have hn : findSub pat (c :: t) = none := findSub_eq_none_of_not_occurs h
    obtain ⟨hp, hft⟩ := findSub_cons_eq_none hn
    rw [removeSub, if_neg (by simp [hp])]
    rw [removeSub_eq_self (by simp [occursSub, hft])]

/-- The accumulated text after the fragment loop is the concatenation of all
fragments. -/
theorem answerChunkStep_fullQuestion (st : LoopState) (c : Str) :
    (answerChunkStep st c).fullQuestion = st.fullQuestion ++ c := by
  unfold answerChunkStep
  dsimp only
  cases hfs : findSub saTag (st.fullQuestion ++ c) with
  | none => rfl
  | some idx =>
    dsimp only
    split <;> split <;> rfl

theorem runStreamLoop_fullQuestion (chunks : List Str) : ∀ st : LoopState,
    (runStreamLoop st chunks).fullQuestion = st.fullQuestion ++ chunks.flatten := by
  induction chunks with
  | nil =>
    intro st
    rw [runStreamLoop]
    simp
  | cons c rest ih =>
    intro st
    rw [runStreamLoop, ih, answerChunkStep_fullQuestion]
    rw [List.flatten_cons, List.append_assoc]

/-- One loop step only appends question / waiting / reference-answer events. -/
theorem answerChunkStep_events (st : LoopState) (c : Str) :
    ∃ evs, (answerChunkStep st c).events = st.events ++ evs ∧
      ∀ e ∈ evs, e.etype = EventType.question ∨ e.etype = EventType.waiting ∨
        e.etype = EventType.referenceAnswer := by
  unfold answerChunkStep
  dsimp only
  cases hfs : findSub saTag (st.fullQuestion ++ c) with
  | none =>
    refine ⟨_, rfl, ?_⟩
    intro e he
    simp at he
    subst he
    left
    rfl
  | some idx =>
    dsimp only
    split
    · split
      · exact ⟨_, rfl, by intro e he; simp at he; subst he; right; right; rfl⟩
      · exact ⟨[], by simp, by simp⟩
    · split
      · refine ⟨_, by rw [List.append_assoc], ?_⟩
        intro e he
        simp at he
        rcases he with h | h | h <;> subst h <;> simp
      · refine ⟨_, rfl, ?_⟩
        intro e he
        simp at he
        rcases he with h | h <;> subst h <;> simp

/-- Loop events are the initial events plus question / waiting /
reference-answer events only. -/
theorem runStreamLoop_events (chunks : List Str) : ∀ st : LoopState,
    ∃ evs, (runStreamLoop st chunks).events = st.events ++ evs ∧
      ∀ e ∈ evs, e.etype = EventType.question ∨ e.etype = EventType.waiting ∨
        e.etype = EventType.referenceAnswer := by
  induction chunks with
  | nil =>
    intro st
    exact ⟨[], by rw [runStreamLoop]; simp, by simp⟩
  | cons c rest ih =>
    intro st
    rw [runStreamLoop]
    obtain ⟨evs1, he1, hk1⟩ := answerChunkStep_events st c
    obtain ⟨evs2, he2, hk2⟩ := ih (answerChunkStep st c)
    refine ⟨evs1 ++ evs2, ?_, ?_⟩
    · rw [he2, he1, List.append_assoc]
    · intro e he
      rcases List.mem_append.mp he with h | h
      · exact hk1 e h
      · exact hk2 e h

/-- When `[STANDARD_ANSWER]` never occurs in the accumulated text, the loop
stays in question-forwarding mode: the flag stays down, the split fields stay
put, and only streaming question events are appended. -/
theorem runStreamLoop_no_sa (chunks : List Str) : ∀ st : LoopState,
    st.hasStandardAnswer = false →
    occursSub saTag (st.fullQuestion ++ chunks.flatten) = false →
    (runStreamLoop st chunks).hasStandardAnswer = false ∧
    (runStreamLoop st chunks).questionOnlyContent = st.questionOnlyContent ∧
    (runStreamLoop st chunks).standardAnswerContent = st.standardAnswerContent ∧
    ∃ evs, (runStreamLoop st chunks).events = st.events ++ evs ∧
      ∀ e ∈ evs, e.etype = EventType.question ∧ e.isStreaming = some true := by
  induction chunks with
  | nil =>
    intro st h1 _
    rw [runStreamLoop]
    exact ⟨h1, rfl, rfl, [], by simp, by simp⟩
  | cons c rest ih =>
    intro st h1 h2
    have hpre : occursSub saTag ((st.fullQuestion ++ c) ++ rest.flatten) = false := by
      rw [List.append_assoc]
      simpa [List.flatten_cons, List.append_assoc] using h2
    have hc : occursSub saTag (st.fullQuestion ++ c) = false :=
      occursSub_false_of_append hpre
    have hstep : answerChunkStep st c =
        { st with
          fullQuestion := st.fullQuestion ++ c,
          events := st.events ++
            [{ etype := .question, content := some (st.fullQuestion ++ c),
               isStreaming := some true }] } := by
      unfold answerChunkStep
      dsimp only
      rw [findSub_eq_none_of_not_occurs hc]
    rw [runStreamLoop, hstep]
    obtain ⟨ha, hq, hsa, evs, hevs, hall⟩ :=
      ih { st with
           fullQuestion := st.fullQuestion ++ c,
           events := st.events ++
             [{ etype := .question, content := some (st.fullQuestion ++ c),
                isStreaming := some true }] } h1 hpre
    refine ⟨ha, hq, hsa,
      [{ etype := .question, content := some (st.fullQuestion ++ c),
         isStreaming := some true }] ++ evs, ?_, ?_⟩
    · rw [hevs]
      simp
    · intro e he
      rcases List.mem_append.mp he with h | h
      · simp at h
        subst h
        exact ⟨rfl, rfl⟩
      · exact hall e h

/-- The generator return value: `shouldEnd` is the end-marker test on the full
content. -/
theorem parse_shouldEnd (content : Str) :
    (parseInterviewResponse content).shouldEnd = occursSub eiTag content := rfl

/-- Without either delimiter, the parsed question is the trimmed full content
and there is no standard answer. -/
theorem parse_no_tags {content : Str}
    (hsa : occursSub saTag content = false)
    (hei : occursSub eiTag content = false) :
    parseInterviewResponse content =
      { question := trimStr content, shouldEnd := false, standardAnswer := none } := by
  unfold parseInterviewResponse
  rw [findSub_eq_none_of_not_occurs hsa]
  dsimp only
  rw [removeSub_eq_self hei, hei]

/-- The accumulated text of the answer loop started from the initial state. -/
theorem answerLoop_fullQuestion (chunks : List Str) :
    (runStreamLoop answerLoopInit chunks).fullQuestion = chunks.flatten := by
  rw [runStreamLoop_fullQuestion]
  exact List.nil_append _

theorem lookupSession_updateInterviewQuestion (db : Db) (rid : String) (i : Nat)
    (q : Str) (sid : String) :
    lookupSession (updateInterviewQuestion db rid i q) sid = lookupSession db sid := rfl

theorem lookupSession_updateInterviewStandardAnswer (db : Db) (rid : String) (i : Nat)
    (sa : Str) (sid : String) :
    lookupSession (updateInterviewStandardAnswer db rid i sa) sid
      = lookupSession db sid := rfl

theorem lookupSession_createPlaceholder (db : Db) (rid : String) (sid : String) :
    lookupSession (createInterviewQuestionPlaceholder db rid) sid
      = lookupSession db sid := rfl

theorem lookupSession_updateInterviewAnswer (db : Db) (rid : String) (i : Nat)
    (a : Str) (s : Session) (sid : String) :
    lookupSession (updateInterviewAnswer db rid i a s) sid = lookupSession db sid := by
  unfold updateInterviewAnswer
  cases findResultById db rid <;> rfl

/-- The session object `answerPersist` leaves in the in-memory table: the input
session with the new interviewer turn appended. -/
theorem answerPersist_lookup (db : Db) (session : Session) (rid : String)
    (ai : AiAnswer) (nowMs : Nat) :
    lookupSession (answerPersist db session rid ai nowMs).1 session.sessionId
      = some { session with
               conversationHistory := session.conversationHistory ++
                 [{ role := .interviewer, content := ai.question,
                    timestampMs := nowMs, standardAnswer := ai.standardAnswer }] } := by
  unfold answerPersist
  dsimp only
  rw [lookupSession_updateResultById]
  cases hsa : ai.standardAnswer with
  | none =>
    dsimp only
    rw [lookupSession_updateInterviewQuestion]
    exact lookupSession_putSession_self _ _
  | some sa =>
    dsimp only
    split
    · rw [lookupSession_updateInterviewStandardAnswer, lookupSession_updateInterviewQuestion]
      exact lookupSession_putSession_self _ _
    · rw [lookupSession_updateInterviewQuestion]
      exact lookupSession_putSession_self _ _

/-- Both interview types cap the duration at a positive number of minutes
(120 for each). -/
theorem maxDurationOf_pos (t : MockInterviewType) : 0 < maxDurationOf t := by
  cases t <;> decide

theorem lookupSession_withResultsRecords (db : Db) (rs : List AIInterviewResult)
    (cs : List ConsumptionRecord) (sid : String) :
    lookupSession { db with aiResults := rs, records := cs } sid
      = lookupSession db sid := rfl

/-- `saveMockInterviewResult` never touches the in-memory session table. -/
theorem lookupSession_saveMockInterviewResult (db : Db) (ss : Session)
    (fr fc : String) (sid : String) :
    lookupSession (saveMockInterviewResult db ss fr fc).1 sid
      = lookupSession db sid := by
  unfold saveMockInterviewResult
  cases ss.resultId with
  | none =>
    dsimp only
    rw [lookupSession_withResultsRecords]
  | some rid =>
    dsimp only
    cases ss.consumptionRecordId with
    | none =>
      dsimp only
      rw [lookupSession_updateResultById]
    | some cid =>
      dsimp only
      rw [lookupSession_updateRecordById, lookupSession_updateResultById]

/-- On the realtime-saving path (`resultId` present), `saveMockInterviewResult`
marks the stored result completed and snapshots the final session state. -/
theorem findResultById_saveMockInterviewResult_some {db : Db} {ss : Session}
    {rid : String} (fr fc : String) {r : AIInterviewResult}
    (hrid : ss.resultId = some rid)
    (hr : findResultById db rid = some r) :
    findResultById (saveMockInterviewResult db ss fr fc).1 rid
      = some { r with status := .completed, sessionState := some ss } := by
  unfold saveMockInterviewResult
  rw [hrid]
  dsimp only
  cases ss.consumptionRecordId with
  | none =>
    exact findResultById_update_self _ hr rfl
  | some cid =>
    dsimp only
    rw [findResultById_updateRecordById]
    exact findResultById_update_self _ hr rfl

theorem aiResults_dropSession (db : Db) (sid : String) :
    (dropSession db sid).aiResults = db.aiResults := rfl

theorem aiResults_updateResultById (db : Db) (rid : String)
    (f : AIInterviewResult → AIInterviewResult) :
    (updateResultById db rid f).aiResults
      = db.aiResults.map (fun r => if r.resultId == rid then f r else r) := rfl

/-- Re-activating an already-active session is the identity. -/
theorem Session.reactivate_self {s : Session} (h : s.isActive = true) :
    { s with isActive := true } = s := by
  cases s
  dsimp only at h
  subst h
  rfl

/-! ## Claim theorems -/

/-- C1: a `start(type=SPECIAL)` call for a user whose `specialRemainingCount`
is 0 fails with the insufficient-balance error, and the conditional debit
itself never drives the counter below zero — but the operation does NOT leave
the balance at 0: the unconditional refund in the catch block of
`executeStartMockInterview` (lines 1114-1122) runs even though the debit never
succeeded, so the balance ends at 1.  This theorem evaluates the code at the
failing input. -/
theorem c1_zero_special_start_fails_but_balance_becomes_one :
    (executeStartMockInterview dbZeroSpecial "u" startDtoSpecial "s1" "res1" "rec1" 0 100
        (some ["hi".data])).2.2.2 = .error (.badRequest insufficientSpecialMsg) ∧
    lookupUser (executeStartMockInterview dbZeroSpecial "u" startDtoSpecial "s1" "res1"
        "rec1" 0 100 (some ["hi".data])).1 "u"
      = some { resumeRemainingCount := 2, specialRemainingCount := 1,
               behaviorRemainingCount := 5 } := by
  constructor <;> rfl

/-- C9: `executeAnswerMockInterview` validates before doing any work — a
missing session yields the NotFoundException, a session owned by another user
yields the wrong-owner BadRequestException (the FORBIDDEN rejection of the
spec's taxonomy), and an inactive session yields the invalid-state
BadRequestException; in each case the stores are untouched, no event is pushed
and no action (in particular no AI stream) is started. -/
theorem c9_answer_validates_before_any_work
    (db : Db) (uid sessionId : String) (answer : Str) (nowMs : Nat)
    (chunks : List Str) (fr fc : String) :
    (lookupSession db sessionId = none →
      executeAnswerMockInterview db uid sessionId answer nowMs chunks fr fc
        = (db, [], [], .error (.notFound sessionMissingMsg))) ∧
    (∀ s, lookupSession db sessionId = some s → s.userId ≠ uid →
      executeAnswerMockInterview db uid sessionId answer nowMs chunks fr fc
        = (db, [], [], .error (.badRequest forbiddenMsg))) ∧
    (∀ s, lookupSession db sessionId = some s → s.userId = uid → s.isActive = false →
      executeAnswerMockInterview db uid sessionId answer nowMs chunks fr fc
        = (db, [], [], .error (.badRequest sessionEndedMsg))) := by
  refine ⟨?_, ?_, ?_⟩
  · intro h
    unfold executeAnswerMockInterview
    rw [h]
  · intro s hs hne
    unfold executeAnswerMockInterview
    rw [hs]
    dsimp only
    rw [if_pos hne]
  · intro s hs howner hinact
    unfold executeAnswerMockInterview
    rw [hs]
    dsimp only
    rw [if_neg (by simp [howner]), if_pos (by simp [hinact])]

/-- Witness for C9 at concrete inputs: an empty table, a foreign-owned session
and an inactive session. -/
theorem c9_answer_validates_before_any_work_witness :
    executeAnswerMockInterview dbFunded "u" "s" "a".data 0 [] "fr" "fc"
      = (dbFunded, [], [], .error (.notFound sessionMissingMsg)) ∧
    executeAnswerMockInterview dbActive "intruder" "s" "a".data 0 [] "fr" "fc"
      = (dbActive, [], [], .error (.badRequest forbiddenMsg)) ∧
    (let dbInactive : Db :=
      { dbActive with
        sessions := [("s", { activeSession with isActive := false })] }
     executeAnswerMockInterview dbInactive "u" "s" "a".data 0 [] "fr" "fc"
      = (dbInactive, [], [], .error (.badRequest sessionEndedMsg))) := by
  refine ⟨?_, ?_, ?_⟩
  · exact (c9_answer_validates_before_any_work dbFunded "u" "s" "a".data 0 [] "fr" "fc").1
      (by decide)
  · exact (c9_answer_validates_before_any_work dbActive "intruder" "s" "a".data 0 []
      "fr" "fc").2.1 activeSession (by decide) (by decide)
  · exact (c9_answer_validates_before_any_work _ "u" "s" "a".data 0 [] "fr" "fc").2.2
      { activeSession with isActive := false } (by decide) (by decide) (by decide)

/-- A successful refund leaves every store other than the user collection
untouched. -/
theorem refundCount_ok_components {db db' : Db} {uid : String} {t : CreditType}
    (h : refundCount db uid t = .ok db') :
    db'.records = db.records ∧ db'.quizResults = db.quizResults ∧
    db'.aiResults = db.aiResults ∧ db'.sessions = db.sessions := by
  unfold refundCount at h
  cases hl : lookupUser db uid with
  | none =>
    rw [hl] at h
    cases h
  | some u =>
    rw [hl] at h
    cases h
    exact ⟨rfl, rfl, rfl, rfl⟩

/-- C3: idempotency of the resume-quiz `start`.  A prior SUCCESS record for
`(userId, requestId)` short-circuits to the stored result with the stores
completely untouched (in particular no new debit); a prior PENDING record
fails with the retry-later error, creating no record, no result, calling no AI
and attempting no debit; and when the lookup misses (no record, only FAILED
records, or no request key at all) a fresh attempt with a fresh debit
proceeds. -/
theorem c3_idempotent_start
    (db : Db) (uid : String) (dto : ResumeQuizDto) (recordId resultId tempId : String)
    (ai : Option AiQuizOutput) :
    (∀ r q, idempotencyLookup db uid dto.requestId = some r →
      r.status = ConsumptionStatus.success →
      db.quizResults.find? (fun x => some x.resultId == r.resultId) = some q →
      executeResumeQuiz db uid dto recordId resultId tempId ai
        = (db, [], .ok { resultId := q.resultId, questions := q.questions,
                         summary := q.summary, isFromCache := true })) ∧
    (∀ r, idempotencyLookup db uid dto.requestId = some r →
      r.status = ConsumptionStatus.pending →
      (executeResumeQuiz db uid dto recordId resultId tempId ai).2.2
          = .error QuizError.requestInFlight ∧
      (executeResumeQuiz db uid dto recordId resultId tempId ai).1.records
          = db.records ∧
      (executeResumeQuiz db uid dto recordId resultId tempId ai).1.quizResults
          = db.quizResults ∧
      Action.aiCall ∉ (executeResumeQuiz db uid dto recordId resultId tempId ai).2.1 ∧
      (∀ b, Action.debitAttempt b ∉
          (executeResumeQuiz db uid dto recordId resultId tempId ai).2.1)) ∧
    (∀ u out, idempotencyLookup db uid dto.requestId = none →
      lookupUser db uid = some u → 0 < u.resumeRemainingCount →
      dto.resumeContent ≠ "" → ai = some out →
      ∃ dbAfter,
        executeResumeQuiz db uid dto recordId resultId tempId ai
          = (dbAfter,
             [Action.debitAttempt true, Action.createRecord .pending, Action.aiCall,
              Action.createQuizResult, Action.updateRecord .success],
             .ok { resultId := tempId, questions := out.questions,
                   summary := out.summary, isFromCache := false }) ∧
        lookupUser dbAfter uid
          = some (u.set CreditType.resume (u.resumeRemainingCount - 1))) := by
  refine ⟨?_, ?_, ?_⟩
  · intro r q hidem hst hq
    unfold executeResumeQuiz
    rw [hidem]
    dsimp only
    rw [if_pos (by simp [hst]), hq]
  · intro r hidem hst
    have hrun : executeResumeQuiz db uid dto recordId resultId tempId ai
        = quizCatch db uid none QuizError.requestInFlight := by
      unfold executeResumeQuiz
      rw [hidem]
      dsimp only
      rw [if_neg (by simp [hst])]
    rw [hrun]
    unfold quizCatch
    cases href : refundCount db uid CreditType.resume with
    | error e =>
      dsimp only
      exact ⟨rfl, rfl, rfl, by decide, by intro b; simp⟩
    | ok db1 =>
      obtain ⟨h1, h2, _, _⟩ := refundCount_ok_components href
      dsimp only
      exact ⟨rfl, h1, h2, by decide, by intro b; simp⟩
  · intro u out hidem hu hpos hrc hai
    subst hai
    unfold executeResumeQuiz
    rw [hidem]
    dsimp only
    rw [findOneAndDebit_pos (t := CreditType.resume) hu (by exact hpos)]
    dsimp only
    rw [if_neg hrc]
    refine ⟨_, rfl, ?_⟩
    show lookupUser (setUser db uid (u.set CreditType.resume (u.get CreditType.resume - 1)))
        uid = _
    exact lookupUser_setUser_self _ hu

/-- Witness for C3 at concrete inputs: a cached SUCCESS replay, a PENDING
replay, and a fresh keyless attempt. -/
theorem c3_idempotent_start_witness :
    executeResumeQuiz dbPriorSuccess "u" quizDtoKey "r1" "rs1" "tmp" (some sampleAiOutput)
      = (dbPriorSuccess, [],
         .ok { resultId := "rs", questions := ["q1"], summary := "sum",
               isFromCache := true }) ∧
    (executeResumeQuiz dbPriorPending "u" quizDtoKey "r1" "rs1" "tmp"
        (some sampleAiOutput)).2.2 = .error QuizError.requestInFlight ∧
    (executeResumeQuiz dbFunded "u" quizDtoNoKey "r1" "rs1" "tmp"
        (some sampleAiOutput)).2.1
      = [Action.debitAttempt true, Action.createRecord .pending, Action.aiCall,
         Action.createQuizResult, Action.updateRecord .success] := by
  refine ⟨?_, ?_, ?_⟩
  · have h := (c3_idempotent_start dbPriorSuccess "u" quizDtoKey "r1" "rs1" "tmp"
      (some sampleAiOutput)).1 priorSuccessRecord priorQuizResult
      (by decide) (by decide) (by decide)
    exact h
  · exact ((c3_idempotent_start dbPriorPending "u" quizDtoKey "r1" "rs1" "tmp"
      (some sampleAiOutput)).2.1 priorPendingRecord (by decide) (by decide)).1
  · obtain ⟨dbA, heq, _⟩ := (c3_idempotent_start dbFunded "u" quizDtoNoKey "r1" "rs1"
      "tmp" (some sampleAiOutput)).2.2 userFunded sampleAiOutput
      (by decide) (by decide) (by decide) (by decide) rfl
    rw [heq]

/-- The quiz catch block always rethrows the original error. -/
theorem quizCatch_err (db : Db) (uid : String) (recId : Option String) (e : QuizError) :
    (quizCatch db uid recId e).2.2 = .error e := by
  unfold quizCatch
  cases href : refundCount db uid CreditType.resume <;> cases recId <;> rfl

/-- The quiz catch block increments the resume counter of an existing user. -/
theorem quizCatch_lookup {db : Db} {uid : String} {u : UserDoc} (recId : Option String)
    (e : QuizError) (hu : lookupUser db uid = some u) :
    lookupUser (quizCatch db uid recId e).1 uid
      = some (u.set CreditType.resume (u.get CreditType.resume + 1)) := by
  unfold quizCatch
  rw [refundCount_some hu]
  cases recId with
  | none => exact lookupUser_setUser_self _ hu
  | some rid =>
    dsimp only
    rw [lookupUser_updateRecordById]
    exact lookupUser_setUser_self _ hu

/-- The quiz catch block marks the consumption record of the attempt FAILED and
refunded. -/
theorem quizCatch_record {db : Db} {uid : String} {u : UserDoc} {recId : String}
    {r : ConsumptionRecord} (e : QuizError)
    (hu : lookupUser db uid = some u)
    (hr : findRecordById db recId = some r) :
    findRecordById (quizCatch db uid (some recId) e).1 recId
      = some { r with status := .failed, isRefunded := true } := by
  unfold quizCatch
  rw [refundCount_some hu]
  dsimp only
  exact findRecordById_update_self _ hr rfl

/-- When the opening generator throws, the mock-start tail refunds the counter
and rethrows the upstream failure. -/
theorem mockStartFinish_none_parts {db5 : Db} {uid : String} {w : UserDoc}
    {t : CreditType} {s1 : Session} {rid : String} {ms : Nat}
    (hu : lookupUser db5 uid = some w) :
    (mockStartFinish db5 uid t s1 rid ms none).2.2.2
        = .error MockError.upstreamFailure ∧
    lookupUser (mockStartFinish db5 uid t s1 rid ms none).1 uid
        = some (w.set t (w.get t + 1)) := by
  unfold mockStartFinish
  rw [refundCount_some hu]
  exact ⟨rfl, lookupUser_setUser_self _ hu⟩

/-- Debiting then refunding one unit restores the original document. -/
theorem debit_refund_roundtrip (u : UserDoc) (t : CreditType) :
    (u.set t (u.get t - 1)).set t ((u.set t (u.get t - 1)).get t + 1) = u := by
  rw [UserDoc.get_set_same, UserDoc.set_set_same, sub_add_cancel, UserDoc.set_get_self]

/-- C2 (amended): for the resume-quiz `start`, an upstream generation failure
after a successful debit is fully compensated — the balance returns to the
exact pre-call document and the attempt's consumption record ends FAILED with
`refunded = true`.  For the mock-interview `start`, the refund also restores
the balance, but the consumption record — created with status SUCCESS before
the metered work and never touched by the catch — does not end FAILED
(see the counterexample theorem). -/
theorem c2_upstream_failure_refund (db : Db) (uid : String) (u : UserDoc)
    (hu : lookupUser db uid = some u) :
    (∀ (dto : ResumeQuizDto) (recordId resultId tempId : String),
      idempotencyLookup db uid dto.requestId = none →
      0 < u.resumeRemainingCount →
      dto.resumeContent ≠ "" →
      findRecordById db recordId = none →
      (executeResumeQuiz db uid dto recordId resultId tempId none).2.2
          = .error QuizError.upstreamFailure ∧
      lookupUser (executeResumeQuiz db uid dto recordId resultId tempId none).1 uid
          = some u ∧
      findRecordById (executeResumeQuiz db uid dto recordId resultId tempId none).1
          recordId
        = some { recordId := recordId, userId := uid,
                 ctype := ConsumptionType.resumeQuiz,
                 status := ConsumptionStatus.failed, requestId := dto.requestId,
                 resultId := some resultId, outputResultId := none,
                 isRefunded := true }) ∧
    (∀ (dto : StartMockDto) (sid rid recId : String) (t1 t2 : Nat),
      0 < u.get (countFieldOf dto.interviewType) →
      dto.resumeContent ≠ "" →
      (executeStartMockInterview db uid dto sid rid recId t1 t2 none).2.2.2
          = .error MockError.upstreamFailure ∧
      lookupUser (executeStartMockInterview db uid dto sid rid recId t1 t2 none).1 uid
          = some u) := by
  constructor
  · intro dto recordId resultId tempId hidem hpos hrc hrec
    unfold executeResumeQuiz
    rw [hidem]
    dsimp only
    simp only [findOneAndDebit_pos (t := CreditType.resume) hu (by exact hpos)]
    rw [if_neg hrc]
    dsimp only
    refine ⟨quizCatch_err _ _ _ _, ?_, ?_⟩
    · conv_rhs => rw [← debit_refund_roundtrip u CreditType.resume]
      refine quizCatch_lookup
        (u := u.set CreditType.resume (u.get CreditType.resume - 1)) _ _ ?_
      exact lookupUser_setUser_self _ hu
    · refine @quizCatch_record _ uid
        (u.set CreditType.resume (u.get CreditType.resume - 1)) recordId
        ({ recordId := recordId, userId := uid, ctype := ConsumptionType.resumeQuiz,
           status := ConsumptionStatus.pending, requestId := dto.requestId,
           resultId := some resultId, outputResultId := none,
           isRefunded := false } : ConsumptionRecord)
        QuizError.upstreamFailure ?_ ?_
      · exact lookupUser_setUser_self _ hu
      show (db.records ++
          [({ recordId := recordId, userId := uid, ctype := ConsumptionType.resumeQuiz,
              status := ConsumptionStatus.pending, requestId := dto.requestId,
              resultId := some resultId, outputResultId := none,
              isRefunded := false } : ConsumptionRecord)]).find?
            (fun r : ConsumptionRecord => r.recordId == recordId)
        = some ({ recordId := recordId, userId := uid,
                  ctype := ConsumptionType.resumeQuiz,
                  status := ConsumptionStatus.pending, requestId := dto.requestId,
                  resultId := some resultId, outputResultId := none,
                  isRefunded := false } : ConsumptionRecord)
      rw [find?_append_right _ hrec]
      exact List.find?_cons_of_pos _ (by simp)
  · intro dto sid rid recId t1 t2 hpos hrc
    unfold executeStartMockInterview
    dsimp only
    simp only [findOneAndDebit_pos (t := countFieldOf dto.interviewType) hu hpos]
    rw [if_neg hrc]
    constructor
    · refine (mockStartFinish_none_parts
          (w := u.set (countFieldOf dto.interviewType)
            (u.get (countFieldOf dto.interviewType) - 1)) ?_).1
      exact lookupUser_setUser_self _ hu
    · conv_rhs => rw [← debit_refund_roundtrip u (countFieldOf dto.interviewType)]
      refine (mockStartFinish_none_parts
          (w := u.set (countFieldOf dto.interviewType)
            (u.get (countFieldOf dto.interviewType) - 1)) ?_).2
      exact lookupUser_setUser_self _ hu

/-- Counterexample to C2 as stated: for the mock-interview `start`, after an
upstream generation failure that follows a successful debit, the attempt's
consumption record remains SUCCESS with `refunded = false` — it never ends
FAILED with `refunded = true` (the balance itself is restored). -/
theorem c2_mock_record_never_marked_failed :
    (executeStartMockInterview dbFunded "u" startDtoSpecial "s1" "res1" "rec1" 0 100
        none).2.2.2 = .error MockError.upstreamFailure ∧
    (findRecordById (executeStartMockInterview dbFunded "u" startDtoSpecial "s1" "res1"
        "rec1" 0 100 none).1 "rec1").map ConsumptionRecord.status
      = some ConsumptionStatus.success ∧
    (findRecordById (executeStartMockInterview dbFunded "u" startDtoSpecial "s1" "res1"
        "rec1" 0 100 none).1 "rec1").map ConsumptionRecord.isRefunded
      = some false ∧
    lookupUser (executeStartMockInterview dbFunded "u" startDtoSpecial "s1" "res1"
        "rec1" 0 100 none).1 "u" = some userFunded := by
  refine ⟨rfl, rfl, rfl, rfl⟩

/-- Witness for C2 at a concrete input: a fresh keyless resume-quiz attempt by
a funded user whose AI stage fails. -/
theorem c2_upstream_failure_refund_witness :
    (executeResumeQuiz dbFunded "u" quizDtoNoKey "r1" "rs1" "tmp" none).2.2
        = .error QuizError.upstreamFailure ∧
    lookupUser (executeResumeQuiz dbFunded "u" quizDtoNoKey "r1" "rs1" "tmp" none).1 "u"
        = some userFunded ∧
    findRecordById (executeResumeQuiz dbFunded "u" quizDtoNoKey "r1" "rs1" "tmp"
        none).1 "r1"
      = some { recordId := "r1", userId := "u", ctype := ConsumptionType.resumeQuiz,
               status := ConsumptionStatus.failed, requestId := none,
               resultId := some "rs1", outputResultId := none, isRefunded := true } := by
  exact (c2_upstream_failure_refund dbFunded "u" userFunded (by decide)).1
    quizDtoNoKey "r1" "rs1" "tmp" (by decide) (by decide) (by decide) (by decide)

/-- The quiz catch block never marks a record SUCCESS. -/
theorem quizCatch_no_success_action (db : Db) (uid : String) (recId : Option String)
    (e : QuizError) :
    Action.updateRecord ConsumptionStatus.success ∉ (quizCatch db uid recId e).2.1 := by
  unfold quizCatch
  cases refundCount db uid CreditType.resume <;> cases recId <;> simp

/-- C4 (amended): the resume-quiz `start` creates its consumption record with
status PENDING before the AI generation runs, and marks it SUCCESS — with the
output resultId attached — only after the generation succeeded; on a failed
generation no SUCCESS mark ever happens.  The mock-interview `start`, by
contrast, creates its record directly with status SUCCESS before the opening
statement streams (see the counterexample theorem). -/
theorem c4_record_lifecycle (db : Db) (uid : String) (u : UserDoc)
    (hu : lookupUser db uid = some u) :
    (∀ (dto : ResumeQuizDto) (recordId resultId tempId : String) (out : AiQuizOutput),
      idempotencyLookup db uid dto.requestId = none →
      0 < u.resumeRemainingCount → dto.resumeContent ≠ "" →
      findRecordById db recordId = none →
      (executeResumeQuiz db uid dto recordId resultId tempId (some out)).2.1
        = [Action.debitAttempt true, Action.createRecord .pending, Action.aiCall,
           Action.createQuizResult, Action.updateRecord .success] ∧
      findRecordById
          (executeResumeQuiz db uid dto recordId resultId tempId (some out)).1 recordId
        = some { recordId := recordId, userId := uid,
                 ctype := ConsumptionType.resumeQuiz,
                 status := ConsumptionStatus.success, requestId := dto.requestId,
                 resultId := some resultId, outputResultId := some resultId,
                 isRefunded := false }) ∧
    (∀ (dto : ResumeQuizDto) (recordId resultId tempId : String),
      idempotencyLookup db uid dto.requestId = none →
      0 < u.resumeRemainingCount → dto.resumeContent ≠ "" →
      Action.updateRecord ConsumptionStatus.success ∉
        (executeResumeQuiz db uid dto recordId resultId tempId none).2.1) ∧
    (∀ (dto : StartMockDto) (sid rid recId : String) (t1 t2 : Nat) (chunks : List Str),
      0 < u.get (countFieldOf dto.interviewType) → dto.resumeContent ≠ "" →
      (executeStartMockInterview db uid dto sid rid recId t1 t2 (some chunks)).2.1
        = mockStartPreActions ++ [Action.aiCall, Action.updateResult]) := by
  refine ⟨?_, ?_, ?_⟩
  · intro dto recordId resultId tempId out hidem hpos hrc hrec
    unfold executeResumeQuiz
    rw [hidem]
    dsimp only
    simp only [findOneAndDebit_pos (t := CreditType.resume) hu (by exact hpos)]
    rw [if_neg hrc]
    dsimp only
    refine ⟨rfl, ?_⟩
    refine @findRecordById_update_self _ recordId
      ({ recordId := recordId, userId := uid, ctype := ConsumptionType.resumeQuiz,
         status := ConsumptionStatus.pending, requestId := dto.requestId,
         resultId := some resultId, outputResultId := none,
         isRefunded := false } : ConsumptionRecord) _ ?_ rfl
    show (db.records ++
        [({ recordId := recordId, userId := uid, ctype := ConsumptionType.resumeQuiz,
            status := ConsumptionStatus.pending, requestId := dto.requestId,
            resultId := some resultId, outputResultId := none,
            isRefunded := false } : ConsumptionRecord)]).find?
          (fun r : ConsumptionRecord => r.recordId == recordId)
      = some ({ recordId := recordId, userId := uid,
                ctype := ConsumptionType.resumeQuiz,
                status := ConsumptionStatus.pending, requestId := dto.requestId,
                resultId := some resultId, outputResultId := none,
                isRefunded := false } : ConsumptionRecord)
    rw [find?_append_right _ hrec]
    exact List.find?_cons_of_pos _ (by simp)
  · intro dto recordId resultId tempId hidem hpos hrc
    unfold executeResumeQuiz
    rw [hidem]
    dsimp only
    simp only [findOneAndDebit_pos (t := CreditType.resume) hu (by exact hpos)]
    rw [if_neg hrc]
    dsimp only
    intro hmem
    rcases List.mem_append.mp hmem with h | h
    · exact absurd h (by decide)
    · exact quizCatch_no_success_action _ _ _ _ h
  · intro dto sid rid recId t1 t2 chunks hpos hrc
    unfold executeStartMockInterview
    dsimp only
    simp only [findOneAndDebit_pos (t := countFieldOf dto.interviewType) hu hpos]
    rw [if_neg hrc]
    rfl

/-- Counterexample to C4 as stated: a successful mock-interview `start` never
creates a PENDING record — its consumption record is created with status
SUCCESS, and that creation happens before the metered opening statement is
streamed (`createRecord .success` precedes `aiCall` in the action log). -/
theorem c4_mock_record_created_success :
    (executeStartMockInterview dbFunded "u" startDtoSpecial "s1" "res1" "rec1" 0 100
        (some ["hi".data])).2.1
      = [Action.debitAttempt true, Action.registerSession, Action.createResult,
         Action.createRecord ConsumptionStatus.success, Action.aiCall,
         Action.updateResult] ∧
    Action.createRecord ConsumptionStatus.pending ∉
      (executeStartMockInterview dbFunded "u" startDtoSpecial "s1" "res1" "rec1" 0 100
        (some ["hi".data])).2.1 ∧
    (findRecordById (executeStartMockInterview dbFunded "u" startDtoSpecial "s1" "res1"
        "rec1" 0 100 (some ["hi".data])).1 "rec1").map ConsumptionRecord.status
      = some ConsumptionStatus.success := by
  exact ⟨rfl, by decide, rfl⟩

/-- Witness for C4 at a concrete input: a fresh funded resume-quiz attempt
whose AI stage succeeds. -/
theorem c4_record_lifecycle_witness :
    (executeResumeQuiz dbFunded "u" quizDtoNoKey "r1" "rs1" "tmp"
        (some sampleAiOutput)).2.1
      = [Action.debitAttempt true, Action.createRecord .pending, Action.aiCall,
         Action.createQuizResult, Action.updateRecord .success] ∧
    findRecordById (executeResumeQuiz dbFunded "u" quizDtoNoKey "r1" "rs1" "tmp"
        (some sampleAiOutput)).1 "r1"
      = some { recordId := "r1", userId := "u", ctype := ConsumptionType.resumeQuiz,
               status := ConsumptionStatus.success, requestId := none,
               resultId := some "rs1", outputResultId := some "rs1",
               isRefunded := false } := by
  exact (c4_record_lifecycle dbFunded "u" userFunded (by decide)).1 quizDtoNoKey
    "r1" "rs1" "tmp" sampleAiOutput (by decide) (by decide) (by decide) (by decide)

/-- `Action.createRecord` recognizer for the ordering predicate of C5. -/
def isCreateRecord : Action → Bool
  | .createRecord _ => true
  | _ => false

/-- C5 as stated over an action log: every in-memory registration of the
session is preceded by the creation of the durable InterviewResult and of the
consumption record. -/
def registeredOnlyAfterDurable (acts : List Action) : Prop :=
  ∀ i < acts.length, acts.get? i = some Action.registerSession →
    (∃ j < i, acts.get? j = some Action.createResult) ∧
    (∃ k < i, (acts.get? k).map isCreateRecord = some true)

instance (acts : List Action) : Decidable (registeredOnlyAfterDurable acts) := by
  unfold registeredOnlyAfterDurable
  infer_instance

/-- Counterexample to C5 as stated: in a successful mock-interview `start`,
the session is registered in the in-memory table (action index 1) before the
durable result (index 2) and the consumption record (index 3) are created, so
between those steps the table holds a session with no durable records. -/
theorem c5_session_registered_first :
    (executeStartMockInterview dbFunded "u" startDtoSpecial "s1" "res1" "rec1" 0 100
        (some ["hi".data])).2.1
      = [Action.debitAttempt true, Action.registerSession, Action.createResult,
         Action.createRecord ConsumptionStatus.success, Action.aiCall,
         Action.updateResult] ∧
    ¬ registeredOnlyAfterDurable
        (executeStartMockInterview dbFunded "u" startDtoSpecial "s1" "res1" "rec1" 0 100
          (some ["hi".data])).2.1 := by
  exact ⟨rfl, by decide⟩

/-- C5 (amended): on every `start` that passes the debit and resume-content
checks, the in-memory registration comes directly after the debit and strictly
before the durable InterviewResult and ConsumptionRecord creations — the
opposite order from the claim. -/
theorem c5_registration_precedes_durable_records
    (db : Db) (uid : String) (dto : StartMockDto) (sid rid recId : String)
    (t1 t2 : Nat) (opening : Option (List Str)) (u : UserDoc)
    (hu : lookupUser db uid = some u)
    (hpos : 0 < u.get (countFieldOf dto.interviewType))
    (hrc : dto.resumeContent ≠ "") :
    (executeStartMockInterview db uid dto sid rid recId t1 t2 opening).2.1.take 4
      = [Action.debitAttempt true, Action.registerSession, Action.createResult,
         Action.createRecord ConsumptionStatus.success] := by
  unfold executeStartMockInterview
  dsimp only
  simp only [findOneAndDebit_pos (t := countFieldOf dto.interviewType) hu hpos]
  rw [if_neg hrc]
  cases opening with
  | none =>
    unfold mockStartFinish
    dsimp only
    split <;> rfl
  | some chunks => rfl

/-- Witness for C5 at a concrete input. -/
theorem c5_registration_precedes_durable_records_witness :
    (executeStartMockInterview dbFunded "u" startDtoSpecial "s1" "res1" "rec1" 0 100
        none).2.1.take 4
      = [Action.debitAttempt true, Action.registerSession, Action.createResult,
         Action.createRecord ConsumptionStatus.success] := by
  exact c5_registration_precedes_durable_records dbFunded "u" startDtoSpecial "s1"
    "res1" "rec1" 0 100 none userFunded (by decide) (by decide) (by decide)

/-- C6: for an active session owned by the caller, an answer call whose
computed `elapsedMinutes` equals the type's maximum duration takes the forced
ending branch (lines 1205-1259): the only emitted event is the closing-statement
`ended` event with reason `timeout` (no question is generated), the in-memory
session is deactivated with the closing statement appended to its transcript,
and the stored result is marked COMPLETED; an answer call whose
`elapsedMinutes` equals the maximum duration minus one instead proceeds to the
question-generation continuation. -/
theorem c6_timeout_boundary (db : Db) (uid sid : String) (s : Session) (answer : Str)
    (nowMs : Nat) (chunks : List Str) (fr fc : String)
    (hs : lookupSession db sid = some s) (hu : s.userId = uid) (ha : s.isActive = true) :
    ((nowMs - s.startTimeMs) / 1000 / 60 = maxDurationOf s.interviewType →
      (executeAnswerMockInterview db uid sid answer nowMs chunks fr fc).2
        = ([Action.updateResult],
           [{ etype := .ended,
              content := some (timeoutClosingStatement ((nowMs - s.startTimeMs) / 1000 / 60)),
              isStreaming := some false, reason := some "timeout" }],
           .ok ()) ∧
      lookupSession (executeAnswerMockInterview db uid sid answer nowMs chunks fr fc).1
          s.sessionId
        = some (timeoutEndedSession s answer nowMs) ∧
      (∀ rid r, s.resultId = some rid → findResultById db rid = some r →
        findResultById
            (executeAnswerMockInterview db uid sid answer nowMs chunks fr fc).1 rid
          = some { r with
                   status := .completed,
                   sessionState := some (timeoutEndedSession s answer nowMs) })) ∧
    ((nowMs - s.startTimeMs) / 1000 / 60 = maxDurationOf s.interviewType - 1 →
      executeAnswerMockInterview db uid sid answer nowMs chunks fr fc
        = answerGenerate (putSession db (answeredSession s answer nowMs))
            (answeredSession s answer nowMs) nowMs chunks fr fc) := by
  constructor
  · intro htime
    unfold executeAnswerMockInterview
    rw [hs]
    dsimp only
    rw [if_neg (by simp [hu]), if_neg (by simp [ha]), if_pos htime.ge]
    refine ⟨rfl, ?_, ?_⟩
    · rw [lookupSession_saveMockInterviewResult]
      exact lookupSession_putSession_self _ _
    · intro rid r hrid hr
      refine findResultById_saveMockInterviewResult_some fr fc ?_ ?_
      · exact hrid
      · rw [findResultById_putSession, findResultById_putSession]
        exact hr
  · intro htime
    unfold executeAnswerMockInterview
    rw [hs]
    dsimp only
    rw [if_neg (by simp [hu]), if_neg (by simp [ha]),
        if_neg (by have h1 := maxDurationOf_pos s.interviewType; omega)]
    rfl

/-- Witness for C6 at concrete inputs: the active fixture session (2-hour cap,
started at 0) answered at minute 120 and at minute 119. -/
theorem c6_timeout_boundary_witness :
    (executeAnswerMockInterview dbActive "u" "s" "a".data 7200000 [] "fr" "fc").2
      = ([Action.updateResult],
         [{ etype := .ended,
            content := some (timeoutClosingStatement 120),
            isStreaming := some false, reason := some "timeout" }],
         .ok ()) ∧
    findResultById
        (executeAnswerMockInterview dbActive "u" "s" "a".data 7200000 [] "fr" "fc").1 "res"
      = some { activeResult with
               status := .completed,
               sessionState := some (timeoutEndedSession activeSession "a".data 7200000) } ∧
    executeAnswerMockInterview dbActive "u" "s" "a".data 7140000 ["Q2?".data] "fr" "fc"
      = answerGenerate
          (putSession dbActive (answeredSession activeSession "a".data 7140000))
          (answeredSession activeSession "a".data 7140000) 7140000 ["Q2?".data] "fr" "fc" := by
  refine ⟨?_, ?_, ?_⟩
  · exact ((c6_timeout_boundary dbActive "u" "s" activeSession "a".data 7200000 [] "fr" "fc"
      (by decide) rfl rfl).1 (by decide)).1
  · exact ((c6_timeout_boundary dbActive "u" "s" activeSession "a".data 7200000 [] "fr" "fc"
      (by decide) rfl rfl).1 (by decide)).2.2 "res" activeResult rfl (by decide)
  · exact (c6_timeout_boundary dbActive "u" "s" activeSession "a".data 7140000 ["Q2?".data]
      "fr" "fc" (by decide) rfl rfl).2 (by decide)

/-- C10: when the fragment stream of an answer call completes without ever
containing the `[STANDARD_ANSWER]` delimiter (and the interview does not end),
the emitted events are the `thinking` event, streaming `question` events only,
and a final non-streaming `question` event carrying the whole (trimmed)
accumulated stream content followed by a `waiting` event; in particular no
reference-answer event is ever emitted. -/
theorem c10_no_delimiter_stream (db : Db) (uid sid : String) (s : Session)
    (answer : Str) (nowMs : Nat) (chunks : List Str) (fr fc rid : String)
    (hs : lookupSession db sid = some s) (hu : s.userId = uid) (ha : s.isActive = true)
    (ht : (nowMs - s.startTimeMs) / 1000 / 60 < maxDurationOf s.interviewType)
    (hrid : s.resultId = some rid)
    (hsa : occursSub saTag chunks.flatten = false)
    (hei : occursSub eiTag chunks.flatten = false) :
    (∃ evs,
      (executeAnswerMockInterview db uid sid answer nowMs chunks fr fc).2.2.1
        = [{ etype := .thinking }] ++ evs ++
          [{ etype := .question, content := some (trimStr chunks.flatten),
             isStreaming := some false },
           { etype := .waiting }] ∧
      ∀ e ∈ evs, e.etype = EventType.question ∧ e.isStreaming = some true) ∧
    (∀ e ∈ (executeAnswerMockInterview db uid sid answer nowMs chunks fr fc).2.2.1,
      e.etype ≠ EventType.referenceAnswer) ∧
    (executeAnswerMockInterview db uid sid answer nowMs chunks fr fc).2.2.2 = .ok () := by
  unfold executeAnswerMockInterview
  rw [hs]
  dsimp only
  rw [if_neg (by simp [hu]), if_neg (by simp [ha]), if_neg (by omega)]
  unfold answerGenerate
  dsimp only
  obtain ⟨hflag, hq, hsac, evs, hevs, hall⟩ :=
    runStreamLoop_no_sa chunks answerLoopInit rfl (by exact hsa)
  have hfull := answerLoop_fullQuestion chunks
  have hparse : parseInterviewResponse (runStreamLoop answerLoopInit chunks).fullQuestion
      = { question := trimStr chunks.flatten, shouldEnd := false,
          standardAnswer := none } := by
    rw [hfull]
    exact parse_no_tags hsa hei
  rw [if_neg (by simp [hflag])]
  rw [hparse]
  dsimp only
  rw [hrid]
  dsimp only
  rw [if_neg (by simp)]
  rw [if_pos (by simp [hflag])]
  dsimp only
  refine ⟨⟨evs, ?_, hall⟩, ?_, rfl⟩
  · rw [hevs]
    rw [List.append_assoc]
    rfl
  · intro e he
    rw [hevs] at he
    simp only [List.mem_append, List.mem_cons, List.mem_singleton] at he
    rcases he with (h | h) | (h | h)
    · simp [answerLoopInit] at h
      subst h
      simp
    · have h1 := (hall e h).1
      rw [h1]
      simp
    · subst h
      simp
    · rcases h with h | h
      · subst h
        simp
      · simp at h

/-- Witness for C10 at concrete inputs: a one-fragment stream with no
delimiter on the active fixture session. -/
theorem c10_no_delimiter_stream_witness :
    (∃ evs,
      (executeAnswerMockInterview dbActive "u" "s" "a".data 60000
          ["Tell me more.".data] "fr" "fc").2.2.1
        = [{ etype := .thinking }] ++ evs ++
          [{ etype := .question,
             content := some (trimStr (List.flatten ["Tell me more.".data])),
             isStreaming := some false },
           { etype := .waiting }] ∧
      ∀ e ∈ evs, e.etype = EventType.question ∧ e.isStreaming = some true) ∧
    (∀ e ∈ (executeAnswerMockInterview dbActive "u" "s" "a".data 60000
          ["Tell me more.".data] "fr" "fc").2.2.1,
      e.etype ≠ EventType.referenceAnswer) ∧
    (executeAnswerMockInterview dbActive "u" "s" "a".data 60000
        ["Tell me more.".data] "fr" "fc").2.2.2 = .ok () :=
  c10_no_delimiter_stream dbActive "u" "s" activeSession "a".data 60000
    ["Tell me more.".data] "fr" "fc" "res" (by decide) rfl rfl (by decide) rfl
    (by decide) (by decide)

/-- C7: the delimiter-splitting scenario stream delivered as one fragment.
The non-streaming question event is exactly "Why did you leave?", the result is
marked COMPLETED, and the parser extracts the clean standard answer
"Because of growth." for durable storage, as claimed — but both
reference-answer events streamed to the caller carry the raw tail
"Because of growth.[END_INTERVIEW]": the loop of lines 1294-1406 streams
`fullQuestion.substring(standardAnswerStartIndex)` without stripping the
`[END_INTERVIEW]` marker, so the emitted reference-answer content diverges from
the claimed exact text. -/
theorem c7_reference_answer_stream_leaks_end_marker :
    ((executeAnswerMockInterview dbActive "u" "s" "my answer".data 60000 [c7Stream]
        "fr" "fc").2.2.1.filter
          (fun e => e.etype == EventType.question && e.isStreaming == some false)).map
        (fun e => e.content) = [some "Why did you leave?".data] ∧
    (findResultById (executeAnswerMockInterview dbActive "u" "s" "my answer".data 60000
        [c7Stream] "fr" "fc").1 "res").map (fun r => r.status)
      = some ResultStatus.completed ∧
    (parseInterviewResponse c7Stream).standardAnswer = some "Because of growth.".data ∧
    ((executeAnswerMockInterview dbActive "u" "s" "my answer".data 60000 [c7Stream]
        "fr" "fc").2.2.1.filter (fun e => e.etype == EventType.referenceAnswer)).map
        (fun e => e.content)
      = [some "Because of growth.[END_INTERVIEW]".data,
         some "Because of growth.[END_INTERVIEW]".data] ∧
    ("Because of growth.[END_INTERVIEW]".data : Str) ≠ "Because of growth.".data := by
  refine ⟨?_, ?_, ?_, ?_, ?_⟩ <;> decide

/-- C8: pausing an in-progress result whose snapshot is an ACTIVE session and
then resuming it succeeds and reproduces the identical ordered transcript, the
unchanged `questionCount` (as `currentQuestion`), and puts the very same
session object — active again — back into the in-memory table. -/
theorem c8_pause_resume_roundtrip (db : Db) (uid rid : String)
    (r : AIInterviewResult) (s : Session) (nowMs : Nat)
    (hfind : findResult db rid uid = some r)
    (hst : r.status = .inProgress)
    (hss : r.sessionState = some s)
    (hsid : s.sessionId ≠ "")
    (hact : s.isActive = true) :
    (pauseMockInterview db uid rid nowMs).2
      = .ok { resultId := rid, pausedAtMs := nowMs } ∧
    (resumeMockInterview (pauseMockInterview db uid rid nowMs).1 uid rid).2
      = .ok { resultId := rid, sessionId := s.sessionId,
              currentQuestion := s.questionCount,
              lastQuestion :=
                match s.conversationHistory.getLast? with
                | some t => if t.role = .interviewer then some t.content else none
                | none => none,
              conversationHistory := s.conversationHistory } ∧
    lookupSession
        (resumeMockInterview (pauseMockInterview db uid rid nowMs).1 uid rid).1
        s.sessionId
      = some s := by
  have hr := List.find?_some (show db.aiResults.find? _ = some r from hfind)
  have hr12 : (r.resultId == rid) = true ∧ (r.userId == uid) = true := by
    simpa using hr
  obtain ⟨hr1, hr2⟩ := hr12
  unfold pauseMockInterview
  rw [hfind]
  dsimp only
  rw [if_neg (by simp [hst]), if_neg (by simp [hst])]
  rw [hss]
  dsimp only
  rw [if_pos hsid]
  refine ⟨rfl, ?_, ?_⟩ <;>
  · unfold resumeMockInterview
    dsimp only
    rw [aiResults_dropSession, aiResults_updateResultById]
    rw [find?_map_cond (fun x => { x with status := ResultStatus.paused })
      (fun x => x.resultId == rid)
      (fun x => x.resultId == rid && x.userId == uid)
      (fun x => x.resultId == rid && x.userId == uid && x.status == ResultStatus.paused)
      db.aiResults r
      (show db.aiResults.find? (fun x => x.resultId == rid && x.userId == uid)
          = some r from hfind)
      (fun x hx => by
        simp only [Bool.and_eq_true] at hx
        exact hx.1)
      (by simp [hr1, hr2])
      (by
        intro x hx
        dsimp only at hx ⊢
        by_cases hq : (x.resultId == rid) = true
        · rw [if_pos hq]
          simp only [hq, Bool.true_and] at hx
          simp [hq, hx]
        · rw [if_neg hq]
          rw [hx]
          simp)]
    dsimp only
    rw [hss]
    dsimp only
    rw [if_neg hsid]
    try rw [Session.reactivate_self hact]
    try rw [lookupSession_updateResultById]
    try exact lookupSession_putSession_self _ _

/-- Witness for C8 at concrete inputs: the active fixture store. -/
theorem c8_pause_resume_roundtrip_witness :
    (pauseMockInterview dbActive "u" "res" 5000).2
      = .ok { resultId := "res", pausedAtMs := 5000 } ∧
    (resumeMockInterview (pauseMockInterview dbActive "u" "res" 5000).1 "u" "res").2
      = .ok { resultId := "res", sessionId := "s", currentQuestion := 0,
              lastQuestion := some "opening".data,
              conversationHistory := activeSession.conversationHistory } ∧
    lookupSession
        (resumeMockInterview (pauseMockInterview dbActive "u" "res" 5000).1 "u" "res").1
        "s"
      = some activeSession :=
  c8_pause_resume_roundtrip dbActive "u" "res" activeResult activeSession 5000
    (by decide) rfl rfl (by decide) rfl

end ManShiMai
